import Mathlib

/-!
Verification of the crowd-control-system simulation engines
(`backend/app/engine/simulation.py`, `evacuation.py`, `facilities.py`)
against their natural-language specification.

Modelling conventions (shallow embedding):
* Python `float` is modelled as `ℚ`; Python `int` as `ℤ`.
* Python `int(x)` (truncation toward zero) is `pyInt`.
* Python dicts (insertion ordered) are association lists `List (String × α)`;
  reading a missing key (`KeyError`) makes the embedded operation return `none`.
* Operations that can raise are `Option`- or `Except`-valued; `none` / `.error`
  models the Python exception.
* Presentation-only data (human-readable message strings, f-string rounding for
  display, names, (x,y) locations, SVG paths) is elided; every numeric field and
  every control-flow decision of the source is kept.
-/

/-- Python `int(x)` on a real number: truncation toward zero (`Int.tdiv` on the
reduced numerator/denominator). -/
def pyInt (q : ℚ) : ℤ :=
  Int.tdiv q.num q.den

/-- Python `a // b` on ints is floor division. -/
def pyFloorDiv (a b : ℤ) : ℤ := Int.fdiv a b

/-- Association-list lookup (first match), modelling `d[k]` / `k in d`. -/
def alookup {α : Type} : List (String × α) → String → Option α
  | [], _ => none
  | (k', v) :: rest, k => if k' = k then some v else alookup rest k

/-- Modify the value at the first occurrence of key `k` (the key is known to be
present when this is used, mirroring Python's mutate-through-reference). -/
def aupdate {α : Type} : List (String × α) → String → (α → α) → List (String × α)
  | [], _, _ => []
  | (k', v) :: rest, k, f =>
    if k' = k then (k', f v) :: rest else (k', v) :: aupdate rest k f

/-- `dict.get(k, d)` with a default. -/
def alookupD {α : Type} (l : List (String × α)) (k : String) (d : α) : α :=
  (alookup l k).getD d

section CrowdSim

/-- `SimulationParams` from `simulation.py` (all defaults as in the source). -/
structure SimulationParams where
  desired_speed : ℚ := 134 / 100
  max_speed : ℚ := 5 / 2
  density_comfortable : ℚ := 1 / 2
  density_crowded : ℚ := 2
  density_dangerous : ℚ := 4
  density_critical : ℚ := 6
  gate_scan_time : ℚ := 3
  vip_scan_time : ℚ := 3 / 2
  flow_reduction_crowded : ℚ := 7 / 10
  flow_reduction_dangerous : ℚ := 2 / 5
  flow_reduction_critical : ℚ := 1 / 10
  deriving DecidableEq

/-- Default-constructed `SimulationParams()`. -/
def defaultParams : SimulationParams := {}

/-- `Gate` venue model (name/location/current_queue are presentation or unused
by the engine and elided). -/
structure Gate where
  gate_id : String
  capacity_per_minute : ℤ
  is_emergency_exit : Bool := false
  connected_zones : List String := []
  is_open : Bool := true
  deriving DecidableEq

/-- `Zone` venue model (name/zone_type/connected_gates/svg elided: unused by the
simulation engine). -/
structure Zone where
  zone_id : String
  capacity : ℤ
  area_sqm : ℚ
  connected_zones : List String := []
  deriving DecidableEq

/-- `Venue` (id/name/type/location elided). -/
structure Venue where
  gates : List Gate
  zones : List Zone
  deriving DecidableEq

/-- `Venue.get_zone`: first zone with the given id, else `None`. -/
def Venue.get_zone (v : Venue) (zid : String) : Option Zone :=
  v.zones.find? (fun z => z.zone_id = zid)

/-- `ZoneState` (inflow_rate/outflow_rate elided: never written by the engine). -/
structure ZoneState where
  zone_id : String
  current_occupancy : ℤ
  density : ℚ
  risk_level : String := "safe"
  deriving DecidableEq

/-- `GateState`. -/
structure GateState where
  gate_id : String
  queue_length : ℤ
  throughput_rate : ℚ
  wait_time_minutes : ℚ
  is_congested : Bool := false
  deriving DecidableEq

/-- `CrowdState`; `timestamp` is modelled as seconds (`ℚ`); the optional
agent list is elided (never touched by `simulate_timestep`). -/
structure CrowdState where
  event_id : String
  timestamp : ℚ
  simulation_time_minutes : ℚ := 0
  total_inside : ℤ := 0
  total_queuing : ℤ := 0
  total_exited : ℤ := 0
  total_approaching : ℤ := 0
  zone_states : List (String × ZoneState) := []
  gate_states : List (String × GateState) := []
  overall_inflow_rate : ℚ := 0
  overall_outflow_rate : ℚ := 0
  deriving DecidableEq

/-- `_get_density_reduction`: four-tier flow-reduction factor. -/
def getDensityReduction (p : SimulationParams) (density : ℚ) : ℚ :=
  if density < p.density_comfortable then 1
  else if density < p.density_crowded then p.flow_reduction_crowded
  else if density < p.density_dangerous then p.flow_reduction_dangerous
  else p.flow_reduction_critical

/-- `_get_risk_level`. -/
def getRiskLevel (p : SimulationParams) (density : ℚ) : String :=
  if density < p.density_comfortable then "safe"
  else if density < p.density_crowded then "moderate"
  else if density < p.density_dangerous then "high"
  else "critical"

/-- `_calculate_flow_reduction`: `max` over the densities of the (present)
connected zones. Python raises if the zone list is non-empty but a zone's state
is missing (`KeyError`) or every element is `None` (`max` of an empty sequence),
hence the `Option`. -/
def calculateFlowReduction (p : SimulationParams) (st : CrowdState)
    (zones : List (Option Zone)) : Option ℚ :=
  if zones.isEmpty then some 1
  else
    match (zones.filterMap id).mapM (fun z => alookup st.zone_states z.zone_id) with
    | none => none
    | some zstates =>
      match zstates.map (·.density) with
      | [] => none
      | d :: ds => some (getDensityReduction p (ds.foldl max d))

/-- One open gate's share of the new arrivals (body of the Python loop in
`_process_arrivals`). -/
def arrivalsGateStep (totalCap : ℚ) (arrivals : ℤ) (st : CrowdState) (g : Gate) :
    Option CrowdState :=
  let gateShare : ℚ := (g.capacity_per_minute : ℚ) / totalCap
  let gateArrivals : ℤ := pyInt ((arrivals : ℚ) * gateShare)
  match alookup st.gate_states g.gate_id with
  | none => none
  | some _ =>
    some { st with
      gate_states :=
        aupdate st.gate_states g.gate_id
          (fun gs => { gs with queue_length := gs.queue_length + gateArrivals }),
      total_approaching := st.total_approaching - gateArrivals,
      total_queuing := st.total_queuing + gateArrivals }

/-- `_process_arrivals`; `jitter` is the one draw of `self._rng.random()`. -/
def processArrivals (venue : Venue) (st : CrowdState)
    (arrivalRate dtSeconds jitter : ℚ) : Option CrowdState :=
  if st.total_approaching ≤ 0 then some st
  else
    let arrivalsThisStep : ℤ :=
      min (pyInt (arrivalRate * dtSeconds / 60 + jitter)) st.total_approaching
    if arrivalsThisStep ≤ 0 then some st
    else
      let openGates := venue.gates.filter (fun g => g.is_open && !g.is_emergency_exit)
      if openGates.isEmpty then some st
      else
        let totalCap : ℚ := openGates.foldl (fun acc g => acc + (g.capacity_per_minute : ℚ)) 0
        openGates.foldlM (arrivalsGateStep totalCap arrivalsThisStep) st

/-- Adding `perZone` people to the state of one connected zone of a gate
(`None` entries of the comprehension receive nothing; a zone present in the
venue but missing from the state is a `KeyError`). -/
def gateZoneAdd (perZone : ℤ) (st : CrowdState) (oz : Option Zone) :
    Option CrowdState :=
  match oz with
  | none => some st
  | some z =>
    match alookup st.zone_states z.zone_id with
    | none => none
    | some _ =>
      some { st with
        zone_states :=
          aupdate st.zone_states z.zone_id
            (fun zs => { zs with current_occupancy := zs.current_occupancy + perZone }) }

/-- The number of people a gate admits in one step
(`int(min(capacity*dt/60, queue) * reduction)` in `_process_gates`). -/
def gateAdmittedCount (cap : ℤ) (dtSeconds : ℚ) (queueLength : ℤ)
    (reduction : ℚ) : ℤ :=
  pyInt (min ((cap : ℚ) * dtSeconds / 60) (queueLength : ℚ) * reduction)

/-- Body of the per-gate loop of `_process_gates`; the second component of the
accumulator is `total_entered`. -/
def gateStep (p : SimulationParams) (venue : Venue) (dtSeconds : ℚ)
    (acc : CrowdState × ℤ) (g : Gate) : Option (CrowdState × ℤ) :=
  let st := acc.1
  if !g.is_open then some acc
  else
    match alookup st.gate_states g.gate_id with
    | none => none
    | some gs =>
      if gs.queue_length ≤ 0 then some acc
      else
        let connectedZones : List (Option Zone) := g.connected_zones.map venue.get_zone
        match calculateFlowReduction p st connectedZones with
        | none => none
        | some reduction =>
          let actualThroughput : ℤ :=
            gateAdmittedCount g.capacity_per_minute dtSeconds gs.queue_length reduction
          let st1 : CrowdState :=
            { st with gate_states :=
                aupdate st.gate_states g.gate_id (fun gs' =>
                  let q := gs'.queue_length - actualThroughput
                  let wait : ℚ :=
                    if 0 < g.capacity_per_minute then (q : ℚ) / (g.capacity_per_minute : ℚ)
                    else 0
                  { gs' with
                    queue_length := q,
                    throughput_rate := (actualThroughput : ℚ) * 60 / dtSeconds,
                    wait_time_minutes := wait,
                    is_congested := decide (10 < wait) }) }
          let afterZones : Option CrowdState :=
            if !connectedZones.isEmpty ∧ 0 < actualThroughput then
              let perZone : ℤ := pyFloorDiv actualThroughput connectedZones.length
              connectedZones.foldlM (gateZoneAdd perZone) st1
            else some st1
          (afterZones.map fun st2 =>
            ({ st2 with total_queuing := st2.total_queuing - actualThroughput },
             acc.2 + actualThroughput))

/-- `_process_gates`. -/
def processGates (p : SimulationParams) (venue : Venue) (st : CrowdState)
    (dtSeconds : ℚ) : Option CrowdState :=
  (venue.gates.foldlM (gateStep p venue dtSeconds) (st, 0)).map fun acc =>
    { acc.1 with
      total_inside := acc.1.total_inside + acc.2,
      overall_inflow_rate := (acc.2 : ℚ) * 60 / dtSeconds }

/-- The single-transfer amount of `_process_zone_flow`:
`int(min(base·red·dt/60/n, occ·0.1, avail))`. -/
def zoneFlowAmount (p : SimulationParams) (reduction dtSeconds : ℚ) (n : ℕ)
    (occ avail : ℤ) : ℤ :=
  pyInt (min (min (p.desired_speed * 60 * reduction * dtSeconds / 60 / (n : ℚ))
                  ((occ : ℚ) * (1 / 10)))
             (avail : ℚ))

/-- One transfer from the zone being processed toward one connected target zone
(body of the inner loop of `_process_zone_flow`). The sender's occupancy is
re-read on each transfer, mirroring the Python mutation through a reference. -/
def zoneFlowTarget (p : SimulationParams) (reduction dtSeconds : ℚ) (n : ℕ)
    (senderId : String) (st : CrowdState) (target : Zone) : Option CrowdState :=
  match alookup st.zone_states target.zone_id, alookup st.zone_states senderId with
  | some targetState, some senderState =>
    let avail : ℤ := target.capacity - targetState.current_occupancy
    if avail ≤ 0 then some st
    else
      let flow : ℤ := zoneFlowAmount p reduction dtSeconds n
        senderState.current_occupancy avail
      if 0 < flow then
        let zs1 := aupdate st.zone_states senderId
          (fun zs => { zs with current_occupancy := zs.current_occupancy - flow })
        let zs2 := aupdate zs1 target.zone_id
          (fun zs => { zs with current_occupancy := zs.current_occupancy + flow })
        some { st with zone_states := zs2 }
      else some st
  | _, _ => none

/-- Body of the per-zone loop of `_process_zone_flow`. -/
def zoneFlowStep (p : SimulationParams) (venue : Venue) (dtSeconds : ℚ)
    (st : CrowdState) (z : Zone) : Option CrowdState :=
  match alookup st.zone_states z.zone_id with
  | none => none
  | some zs =>
    if zs.current_occupancy ≤ 0 then some st
    else
      let reduction := getDensityReduction p zs.density
      let connected : List Zone := z.connected_zones.filterMap venue.get_zone
      if connected.isEmpty then some st
      else
        connected.foldlM
          (zoneFlowTarget p reduction dtSeconds connected.length z.zone_id) st

/-- `_process_zone_flow`. -/
def processZoneFlow (p : SimulationParams) (venue : Venue) (st : CrowdState)
    (dtSeconds : ℚ) : Option CrowdState :=
  venue.zones.foldlM (zoneFlowStep p venue dtSeconds) st

/-- `_update_densities` (a zone of the venue missing from the state is a
`KeyError`; `area_sqm ≥ 1` is enforced by the venue model, so the division is
never by zero for valid venues). -/
def updateDensities (p : SimulationParams) (venue : Venue) (st : CrowdState) :
    Option CrowdState :=
  venue.zones.foldlM
    (fun st' z =>
      match alookup st'.zone_states z.zone_id with
      | none => none
      | some _ =>
        let zs' := aupdate st'.zone_states z.zone_id (fun zs =>
          let d := (zs.current_occupancy : ℚ) / z.area_sqm
          { zs with density := d, risk_level := getRiskLevel p d })
        some { st' with zone_states := zs' })
    st

/-- `simulate_timestep`. The engine object owns only `params` and the RNG used
for the single jitter draw of `_process_arrivals`; that draw is the explicit
`jitter` argument, so the embedded step is a function of precisely the data the
source reads. -/
def simulateTimestep (p : SimulationParams) (venue : Venue) (st : CrowdState)
    (dtSeconds arrivalRate jitter : ℚ) : Option CrowdState :=
  let st0 := { st with
    timestamp := st.timestamp + dtSeconds,
    simulation_time_minutes := st.simulation_time_minutes + dtSeconds / 60 }
  (processArrivals venue st0 arrivalRate dtSeconds jitter).bind fun st1 =>
  (processGates p venue st1 dtSeconds).bind fun st2 =>
  (processZoneFlow p venue st2 dtSeconds).bind fun st3 =>
  updateDensities p venue st3

/-- The conserved aggregate of claim C1. -/
def attendeeSum (st : CrowdState) : ℤ :=
  st.total_approaching + st.total_queuing + st.total_inside + st.total_exited

end CrowdSim

section Evacuation

/-- `EvacuationPhase` from `evacuation.py`. -/
inductive EvacuationPhase where
  | normal
  | alert
  | panic
  | critical
  deriving DecidableEq

/-- `EmergencyExit` (name/location elided as presentation data). -/
structure EmergencyExit where
  exit_id : String
  width : ℚ
  max_flow_rate : ℤ
  connects_to_zone : String
  is_accessible : Bool := true
  current_flow_rate : ℤ := 0
  deriving DecidableEq

/-- `EvacuationZone`. -/
structure EvacuationZone where
  zone_id : String
  current_occupancy : ℤ
  area_sqm : ℚ
  nearest_exits : List String
  distance_to_exits : List (String × ℚ)
  evacuation_started : Bool := false
  evacuated_count : ℤ := 0
  estimated_time_remaining : ℤ := 0
  deriving DecidableEq

/-- A detected bottleneck; the message/action strings and display rounding of
the Python dicts are elided, the structured payload is kept. -/
inductive Bottleneck where
  | zoneBn (zone_id : String) (severity : String) (density : ℚ)
  | exitBn (exit_id : String) (flow_rate : ℤ)
  deriving DecidableEq

/-- A recommendation; human-readable action strings are elided, the structured
payload (priority, kind, target) is kept. -/
inductive Recommendation where
  | evacStart (priority : ℤ) (zone_id : String)
  | criticalAction (target : String)
  | obstruction (exit_id : String)
  | progress (progress_percent : ℚ)
  deriving DecidableEq

/-- `EvacuationState` (`start_time` as seconds). -/
structure EvacuationState where
  phase : EvacuationPhase
  start_time : Option ℚ
  elapsed_seconds : ℤ
  total_to_evacuate : ℤ
  total_evacuated : ℤ
  zones : List (String × EvacuationZone)
  bottlenecks : List Bottleneck
  recommendations : List Recommendation
  estimated_complete_time : ℤ
  deriving DecidableEq

/-- The `EvacuationSimulator` object: exits and zones given to `__init__`, plus
the optional current state (`self.state`, `None` before `start_evacuation`).
The append-only `history` list is elided (never read). -/
structure EvacuationSimulator where
  exits : List (String × EmergencyExit)
  zones : List (String × EvacuationZone)
  state : Option EvacuationState := none
  deriving DecidableEq

/-- `BOTTLENECK_DENSITY`. -/
def BOTTLENECK_DENSITY : ℚ := 4

/-- `CRUSHING_DENSITY`. -/
def CRUSHING_DENSITY : ℚ := 6

/-- Stable descending insertion by `current_occupancy`, matching Python's
stable `sorted(..., key=occupancy, reverse=True)`. -/
def insertByOccDesc (z : EvacuationZone) : List EvacuationZone → List EvacuationZone
  | [] => [z]
  | x :: xs =>
    if x.current_occupancy ≤ z.current_occupancy ∧ x.current_occupancy ≠ z.current_occupancy
    then z :: x :: xs
    else x :: insertByOccDesc z xs

/-- `sorted(zones, key=occupancy, reverse=True)` (stable). -/
def sortByOccDesc : List EvacuationZone → List EvacuationZone
  | [] => []
  | z :: rest => insertByOccDesc z (sortByOccDesc rest)

/-- `_generate_initial_recommendations`. It dereferences `self.state.zones`;
when `self.state` is `None` this is the Python `AttributeError`, hence `none`. -/
def generateInitialRecommendations (state? : Option EvacuationState) :
    Option (List Recommendation) :=
  match state? with
  | none => none
  | some st =>
    let sortedZones := sortByOccDesc (st.zones.map (·.2))
    some ((sortedZones.take 3).enum.filterMap fun iz =>
      if 0 < iz.2.current_occupancy then
        some (Recommendation.evacStart ((iz.1 : ℤ) + 1) iz.2.zone_id)
      else none)

/-- Sum of zone occupancies (`total` in `start_evacuation`). -/
def sumOccupancy (zones : List (String × EvacuationZone)) : ℤ :=
  zones.foldl (fun acc z => acc + z.2.current_occupancy) 0

/-- Sum of all exit `max_flow_rate`s (`total_exit_capacity`). -/
def exitCapacitySum (exits : List (String × EmergencyExit)) : ℤ :=
  exits.foldl (fun acc e => acc + e.2.max_flow_rate) 0

/-- The `estimated_time` computation of `start_evacuation` (source lines
113–118): occupancy over capacity in seconds, `9999` when the capacity is zero,
scaled by the phase safety factor, stored truncated to int. -/
def evacInitialEstimate (zones : List (String × EvacuationZone))
    (exits : List (String × EmergencyExit)) (initialPhase : EvacuationPhase) : ℤ :=
  let total := sumOccupancy zones
  let cap := exitCapacitySum exits
  let estimated : ℚ := if 0 < cap then ((total : ℚ) / (cap : ℚ)) * 60 else 9999
  let safety : ℚ := if initialPhase = EvacuationPhase.alert then 3 / 2 else 2
  pyInt (estimated * safety)

/-- `start_evacuation`. All keyword arguments of the `EvacuationState(...)`
construction are evaluated before `self.state` is assigned; in particular
`_generate_initial_recommendations()` runs while `self.state` is still `None`,
so on a fresh simulator the call raises (`none`) and no state is ever stored. -/
def startEvacuation (sim : EvacuationSimulator) (triggerTime : ℚ)
    (initialPhase : EvacuationPhase) : Option (EvacuationSimulator × EvacuationState) :=
  let total := sumOccupancy sim.zones
  (generateInitialRecommendations sim.state).map fun recs =>
    let st : EvacuationState :=
      { phase := initialPhase
        start_time := some triggerTime
        elapsed_seconds := 0
        total_to_evacuate := total
        total_evacuated := 0
        zones := sim.zones
        bottlenecks := []
        recommendations := recs
        estimated_complete_time := evacInitialEstimate sim.zones sim.exits initialPhase }
    ({ sim with state := some st }, st)

/-- The inner exit loop of `simulate_step` for one zone: accumulates
`zone_evacuated` and writes each used exit's `current_flow_rate`. `occ` is
`zone.current_occupancy`, which Python does not decrement until after the loop;
`velocity` is computed per phase but, like `travel_time`, only feeds
`travel_time` which the source computes and never uses. -/
def evacExitLoop (dtMinutes : ℚ) (occ : ℤ) (area : ℚ)
    (distances : List (String × ℚ)) :
    List String → List (String × EmergencyExit) → ℤ →
    (List (String × EmergencyExit) × ℤ)
  | [], exits, zoneEvacuated => (exits, zoneEvacuated)
  | eid :: rest, exits, zoneEvacuated =>
    match alookup exits eid with
    | none => evacExitLoop dtMinutes occ area distances rest exits zoneEvacuated
    | some ex =>
      if !ex.is_accessible then
        evacExitLoop dtMinutes occ area distances rest exits zoneEvacuated
      else
        let density : ℚ := (occ : ℚ) / area
        let congestionFactor : ℚ := max (3 / 10) (1 - density / BOTTLENECK_DENSITY * (1 / 2))
        let effectiveRate : ℚ := (ex.max_flow_rate : ℚ) * congestionFactor * dtMinutes
        let evacuatedViaExit : ℤ := min (pyInt effectiveRate) (occ - zoneEvacuated)
        let exits' := aupdate exits eid
          (fun e => { e with current_flow_rate := pyInt ((evacuatedViaExit : ℚ) / dtMinutes) })
        evacExitLoop dtMinutes occ area distances rest exits' (zoneEvacuated + evacuatedViaExit)

/-- `remaining_exits_capacity` for one zone: accessible exits among its
`nearest_exits`. -/
def remainingExitsCapacity (exits : List (String × EmergencyExit))
    (nearest : List String) : ℤ :=
  nearest.foldl
    (fun acc eid =>
      match alookup exits eid with
      | some ex => if ex.is_accessible then acc + ex.max_flow_rate else acc
      | none => acc)
    0

/-- Processing of one zone inside `simulate_step`: returns the updated zone,
the updated exits map and the amount evacuated from this zone this step. -/
def evacZoneStep (dtMinutes : ℚ) (exits : List (String × EmergencyExit))
    (zone : EvacuationZone) : EvacuationZone × List (String × EmergencyExit) × ℤ :=
  if zone.current_occupancy ≤ 0 then (zone, exits, 0)
  else
    let (exits', zoneEvacuated) :=
      evacExitLoop dtMinutes zone.current_occupancy zone.area_sqm
        zone.distance_to_exits zone.nearest_exits exits 0
    let newOcc := zone.current_occupancy - zoneEvacuated
    let newEstimate : ℤ :=
      if 0 < newOcc then
        let cap := remainingExitsCapacity exits' zone.nearest_exits
        if 0 < cap then pyInt (((newOcc : ℚ) / (cap : ℚ)) * 60)
        else zone.estimated_time_remaining
      else zone.estimated_time_remaining
    ({ zone with
        evacuation_started := true
        current_occupancy := newOcc
        evacuated_count := zone.evacuated_count + zoneEvacuated
        estimated_time_remaining := newEstimate },
     exits', zoneEvacuated)

/-- The per-zone loop of `simulate_step` over the state's zone dict (insertion
order), threading the exits map and summing the evacuated counts. -/
def evacZonesLoop (dtMinutes : ℚ) :
    List (String × EvacuationZone) → List (String × EmergencyExit) →
    (List (String × EvacuationZone) × List (String × EmergencyExit) × ℤ)
  | [], exits => ([], exits, 0)
  | (k, z) :: rest, exits =>
    let (z', exits', v) := evacZoneStep dtMinutes exits z
    let (rest', exits'', v') := evacZonesLoop dtMinutes rest exits'
    ((k, z') :: rest', exits'', v + v')

/-- `_detect_bottlenecks` (message strings elided; the `round(density, 2)`
is display formatting and the stored density is kept exact). -/
def detectBottlenecks (zones : List (String × EvacuationZone))
    (exits : List (String × EmergencyExit)) : List Bottleneck :=
  (zones.filterMap fun kz =>
    if kz.2.current_occupancy ≤ 0 then none
    else
      let density := (kz.2.current_occupancy : ℚ) / kz.2.area_sqm
      if CRUSHING_DENSITY ≤ density then
        some (Bottleneck.zoneBn kz.1 "critical" density)
      else if BOTTLENECK_DENSITY ≤ density then
        some (Bottleneck.zoneBn kz.1 "high" density)
      else none)
  ++ (exits.filterMap fun ke =>
    if (ke.2.max_flow_rate : ℚ) * (9 / 10) ≤ (ke.2.current_flow_rate : ℚ) then
      some (Bottleneck.exitBn ke.1 ke.2.current_flow_rate)
    else none)

/-- `max(...)` of the densities of occupied zones with `default=0`
(the Python default applies only to an empty sequence). -/
def maxOccupiedDensity (zones : List (String × EvacuationZone)) : ℚ :=
  match zones.filterMap (fun kz =>
    if 0 < kz.2.current_occupancy then
      some ((kz.2.current_occupancy : ℚ) / kz.2.area_sqm)
    else none) with
  | [] => 0
  | d :: ds => ds.foldl max d

/-- `_update_phase`. -/
def updatePhase (phase : EvacuationPhase) (zones : List (String × EvacuationZone)) :
    EvacuationPhase :=
  let maxDensity := maxOccupiedDensity zones
  if CRUSHING_DENSITY ≤ maxDensity then EvacuationPhase.critical
  else if BOTTLENECK_DENSITY ≤ maxDensity then EvacuationPhase.panic
  else if phase = EvacuationPhase.critical ∧ maxDensity < BOTTLENECK_DENSITY then
    EvacuationPhase.panic
  else if phase = EvacuationPhase.panic ∧ maxDensity < BOTTLENECK_DENSITY * (1 / 2) then
    EvacuationPhase.alert
  else phase

/-- `_generate_recommendations` (action strings elided; for a critical
bottleneck the target is `zone_id or exit_id` of the dict, which for the
zone-shaped critical entries is the zone id). -/
def generateRecommendations (bottlenecks : List Bottleneck)
    (exits : List (String × EmergencyExit)) (totalEvacuated totalToEvacuate : ℤ) :
    List Recommendation :=
  (bottlenecks.filterMap fun bn =>
    match bn with
    | Bottleneck.zoneBn zid sev _ =>
      if sev = "critical" then some (Recommendation.criticalAction zid) else none
    | Bottleneck.exitBn _ _ => none)
  ++ ((exits.filter (fun ke => !ke.2.is_accessible)).map fun ke =>
        Recommendation.obstruction ke.1)
  ++ [Recommendation.progress
        ((totalEvacuated : ℚ) / (max totalToEvacuate 1 : ℤ) * 100)]

/-- The state transformation of `simulate_step` once a state exists (the body
after the not-started check). -/
def simulateStepCore (exits : List (String × EmergencyExit))
    (st : EvacuationState) (dtSeconds : ℤ) :
    List (String × EmergencyExit) × EvacuationState :=
  let dtMinutes : ℚ := (dtSeconds : ℚ) / 60
  let (zones', exits', evacuated) := evacZonesLoop dtMinutes st.zones exits
  let bottlenecks := detectBottlenecks zones' exits'
  let phase' := updatePhase st.phase zones'
  let totalEvacuated' := st.total_evacuated + evacuated
  let recs := generateRecommendations bottlenecks exits' totalEvacuated' st.total_to_evacuate
  let remaining := st.total_to_evacuate - totalEvacuated'
  let estimate' : ℤ :=
    if 0 < remaining then
      let totalCapacity :=
        (exits'.filter (fun ke => ke.2.is_accessible)).foldl
          (fun acc ke => acc + ke.2.max_flow_rate) 0
      pyInt (((remaining : ℚ) / (max totalCapacity 1 : ℤ)) * 60)
    else st.estimated_complete_time
  (exits',
   { st with
      elapsed_seconds := st.elapsed_seconds + dtSeconds
      zones := zones'
      total_evacuated := totalEvacuated'
      bottlenecks := bottlenecks
      phase := phase'
      recommendations := recs
      estimated_complete_time := estimate' })

/-- `simulate_step` on the simulator object: raises `ValueError` when
`start_evacuation` has not been called. -/
def simulateStep (sim : EvacuationSimulator) (dtSeconds : ℤ) :
    Except String (EvacuationSimulator × EvacuationState) :=
  match sim.state with
  | none => Except.error "Evacuation not started. Call start_evacuation first."
  | some st =>
    let (exits', st') := simulateStepCore sim.exits st dtSeconds
    Except.ok ({ sim with exits := exits', state := some st' }, st')

/-- Iterated `simulateStepCore` (the per-step evolution of exits and state). -/
def simulateStepsN (exits : List (String × EmergencyExit)) (st : EvacuationState)
    (dtSeconds : ℤ) : ℕ → List (String × EmergencyExit) × EvacuationState
  | 0 => (exits, st)
  | n + 1 =>
    let (e, s) := simulateStepsN exits st dtSeconds n
    simulateStepCore e s dtSeconds

/-- Sum of the zones' `evacuated_count`s. -/
def sumEvacuatedCounts : List (String × EvacuationZone) → ℤ
  | [] => 0
  | z :: rest => z.2.evacuated_count + sumEvacuatedCounts rest

/-- The summary record of `get_evacuation_summary`; `empty` is the bare `{}`
returned before `start_evacuation`, `record` the populated dict (field order and
display rounding elided). -/
inductive EvacuationSummary where
  | empty
  | record (status : String) (phase : EvacuationPhase) (elapsed_seconds : ℤ)
      (total_evacuated : ℤ) (total_to_evacuate : ℤ) (zones_cleared : ℕ)
      (zones_total : ℕ) (bottlenecks_detected : ℕ)
      (recommendations : List Recommendation)
  deriving DecidableEq

/-- `get_evacuation_summary`. -/
def getEvacuationSummary (sim : EvacuationSimulator) : EvacuationSummary :=
  match sim.state with
  | none => EvacuationSummary.empty
  | some st =>
    let zonesCleared :=
      (st.zones.filter fun kz =>
        kz.2.current_occupancy = 0 ∧ 0 < kz.2.evacuated_count).length
    let zonesTotal :=
      (st.zones.filter fun kz =>
        0 < kz.2.evacuated_count ∨ 0 < kz.2.current_occupancy).length
    EvacuationSummary.record
      (if st.total_to_evacuate ≤ st.total_evacuated then "complete" else "in_progress")
      st.phase st.elapsed_seconds st.total_evacuated st.total_to_evacuate
      zonesCleared zonesTotal st.bottlenecks.length st.recommendations

end Evacuation

section Facilities

/-- `FacilityType` from `facilities.py`. -/
inductive FacilityType where
  | restroom_male
  | restroom_female
  | restroom_accessible
  | food_court
  | food_stall
  | merchandise
  | atm
  | first_aid
  deriving DecidableEq

/-- `Facility` (name elided). -/
structure Facility where
  facility_id : String
  facility_type : FacilityType
  location : String
  capacity : ℤ
  service_time_avg : ℚ
  service_time_std : ℚ
  current_queue : ℤ := 0
  total_served : ℤ := 0
  is_operational : Bool := true
  deriving DecidableEq

/-- `FacilityState` (display rounding of wait time / utilization elided). -/
structure FacilityState where
  facility_id : String
  current_queue : ℤ
  wait_time_minutes : ℚ
  utilization_percent : ℚ
  status : String
  deriving DecidableEq

/-- `DEMAND_MULTIPLIERS.get(event_phase, 1.0)`. -/
def demandMultiplier (eventPhase : String) : ℚ :=
  if eventPhase = "pre_event" then 1 / 2
  else if eventPhase = "entry" then 1
  else if eventPhase = "event_start" then 3 / 10
  else if eventPhase = "halftime" then 5
  else if eventPhase = "intermission" then 4
  else if eventPhase = "event_end" then 1 / 2
  else if eventPhase = "exit" then 1 / 5
  else 1

/-- Python division that raises `ZeroDivisionError` on a zero denominator. -/
def pyDiv (a b : ℚ) : Option ℚ :=
  if b = 0 then none else some (a / b)

/-- The per-facility body of `FacilitySimulator.simulate_step`. `jitter` is the
`np.random.uniform(0.8, 1.2)` draw. Both divisions of the source are modelled
fallibly: `capacity * 60 / service_time_avg` and the **unguarded**
`(queue * service_time_avg) / (60 * capacity)`. -/
def facilityStep (f : Facility) (demandMult zonePop jitter dtSeconds : ℚ) :
    Option (Facility × FacilityState) :=
  let baseRate : ℚ :=
    if f.facility_type = FacilityType.restroom_male
        ∨ f.facility_type = FacilityType.restroom_female then
      zonePop * (2 / 1000) * (dtSeconds / 60)
    else if f.facility_type = FacilityType.food_court then
      zonePop * (5 / 1000) * (dtSeconds / 60)
    else if f.facility_type = FacilityType.merchandise then
      zonePop * (1 / 1000) * (dtSeconds / 60)
    else
      zonePop * (1 / 1000) * (dtSeconds / 60)
  let arrivals : ℤ := pyInt (baseRate * demandMult * jitter)
  (pyDiv ((f.capacity : ℚ) * 60) f.service_time_avg).bind fun serviceRate =>
  let completions : ℤ :=
    pyInt (min ((f.current_queue + arrivals : ℤ) : ℚ) (serviceRate * (dtSeconds / 60)))
  let newQueue : ℤ := max 0 (f.current_queue + arrivals - completions)
  (pyDiv ((newQueue : ℚ) * f.service_time_avg) (60 * (f.capacity : ℚ))).map fun waitTime =>
  let maxService : ℚ := serviceRate * (dtSeconds / 60)
  let utilization : ℚ :=
    if 0 < maxService then (completions : ℚ) / maxService * 100 else 0
  let status : String :=
    if 15 < waitTime then "overcrowded" else if 7 < waitTime then "busy" else "normal"
  ({ f with current_queue := newQueue, total_served := f.total_served + completions },
   { facility_id := f.facility_id
     current_queue := newQueue
     wait_time_minutes := waitTime
     utilization_percent := min utilization 100
     status := status })

/-- The facility loop of `FacilitySimulator.simulate_step`; `jitters` supplies
the per-facility uniform draws in order. -/
def facilityLoop (demandMult : ℚ) (zonePopulations : List (String × ℤ))
    (jitters : ℕ → ℚ) (dtSeconds : ℚ) :
    List Facility → ℕ → Option (List Facility × List FacilityState)
  | [], _ => some ([], [])
  | f :: rest, i =>
    if !f.is_operational then
      (facilityLoop demandMult zonePopulations jitters dtSeconds rest i).map
        fun (fs, sts) => (f :: fs, sts)
    else
      let zonePop : ℤ := alookupD zonePopulations f.location 0
      (facilityStep f demandMult (zonePop : ℚ) (jitters i) dtSeconds).bind
        fun (f', st) =>
          (facilityLoop demandMult zonePopulations jitters dtSeconds rest (i + 1)).map
            fun (fs, sts) => (f' :: fs, st :: sts)

/-- `FacilitySimulator.simulate_step` (history elided). -/
def facilitySimulateStep (facilities : List Facility) (eventPhase : String)
    (zonePopulations : List (String × ℤ)) (jitters : ℕ → ℚ) (dtSeconds : ℚ) :
    Option (List Facility × List FacilityState) :=
  facilityLoop (demandMultiplier eventPhase) zonePopulations jitters dtSeconds
    facilities 0

end Facilities

section ArrivalCurve

/-- The `wave` branch of `generate_arrival_curve`, parametric in the truncated
normal density `pdf x a b loc scale` (the `scipy.stats.truncnorm.pdf` library
call, an external collaborator): weights 0.3 / 0.4 / 0.3, truncation bounds
`±30/20`, peak locations 30% / 50% / 70% of the window, common scale 20. -/
def waveCurvePoint (pdf : ℚ → ℚ → ℚ → ℚ → ℚ → ℚ) (durationMinutes m : ℚ) : ℚ :=
  3 / 10 * pdf m (-(30 / 20)) (30 / 20) (durationMinutes * (3 / 10)) 20
  + 4 / 10 * pdf m (-(30 / 20)) (30 / 20) (durationMinutes * (5 / 10)) 20
  + 3 / 10 * pdf m (-(30 / 20)) (30 / 20) (durationMinutes * (7 / 10)) 20

/-- Modelled from the spec: the `wave` sentence of §4.1 — "an equal-weighted
three-peak mixture at 25%/50%/75% of window with a fixed narrow spread" — with
the same fixed spread and truncation bounds as the source, for comparison with
`waveCurvePoint`. -/
def waveCurvePointSpecModel (pdf : ℚ → ℚ → ℚ → ℚ → ℚ → ℚ)
    (durationMinutes m : ℚ) : ℚ :=
  1 / 3 * pdf m (-(30 / 20)) (30 / 20) (durationMinutes * (1 / 4)) 20
  + 1 / 3 * pdf m (-(30 / 20)) (30 / 20) (durationMinutes * (1 / 2)) 20
  + 1 / 3 * pdf m (-(30 / 20)) (30 / 20) (durationMinutes * (3 / 4)) 20

/-- `generate_arrival_curve` for the `wave` pattern over an integer-minute
window `0..durationMinutes`, including the final renormalisation
`curve / curve.sum() * total_attendees`. -/
def generateWaveCurve (pdf : ℚ → ℚ → ℚ → ℚ → ℚ → ℚ) (totalAttendees : ℤ)
    (durationMinutes : ℕ) : List (ℚ × ℚ) :=
  let minutes := (List.range (durationMinutes + 1)).map (fun m => (m : ℚ))
  let curve := minutes.map (waveCurvePoint pdf (durationMinutes : ℚ))
  let s := curve.foldl (· + ·) 0
  minutes.zip (curve.map (fun c => c / s * (totalAttendees : ℚ)))

/-- The same full curve built from the spec-modelled mixture. -/
def generateWaveCurveSpecModel (pdf : ℚ → ℚ → ℚ → ℚ → ℚ → ℚ) (totalAttendees : ℤ)
    (durationMinutes : ℕ) : List (ℚ × ℚ) :=
  let minutes := (List.range (durationMinutes + 1)).map (fun m => (m : ℚ))
  let curve := minutes.map (waveCurvePointSpecModel pdf (durationMinutes : ℚ))
  let s := curve.foldl (· + ·) 0
  minutes.zip (curve.map (fun c => c / s * (totalAttendees : ℚ)))

/-- A concrete point-mass stand-in density used to witness structural facts
about the mixture (which locations carry which weight). -/
def diracPdf (x _a _b loc _scale : ℚ) : ℚ :=
  if x = loc then 1 else 0

/-- A concrete shifted-quadratic stand-in density: depends only on `x - loc`
and is symmetric, like the real truncated normal with symmetric bounds. -/
def quadPdf (x _a _b loc _scale : ℚ) : ℚ :=
  (x - loc) * (x - loc)

end ArrivalCurve






section ExampleInputs

/-! Concrete venues, states and simulators used by witnesses and
counterexamples. `exVenueC1`/`exStateC1` is the single-zone scenario of §8 of
the spec (zone capacity 1000, area 250 m², one 200/min gate, 300 approaching).
-/

/-- The scenario zone of spec §8. -/
def exZoneC1 : Zone :=
  { zone_id := "Z", capacity := 1000, area_sqm := 250, connected_zones := [] }

/-- The scenario gate of spec §8. -/
def exGateC1 : Gate :=
  { gate_id := "G", capacity_per_minute := 200, connected_zones := ["Z"] }

/-- The scenario venue of spec §8. -/
def exVenueC1 : Venue := { gates := [exGateC1], zones := [exZoneC1] }

/-- A zone state with given id and occupancy, density field 0. -/
def mkZoneState (zid : String) (occ : ℤ) : ZoneState :=
  { zone_id := zid, current_occupancy := occ, density := 0 }

/-- The scenario start state: 300 attendees approaching, empty zone and queue. -/
def exStateC1 : CrowdState :=
  { event_id := "e"
    timestamp := 0
    total_approaching := 300
    zone_states := [("Z", mkZoneState "Z" 0)]
    gate_states := [("G", { gate_id := "G", queue_length := 0, throughput_rate := 0,
                            wait_time_minutes := 0 })] }

/-- The state the scenario step produces. -/
def exOutC1 : CrowdState :=
  (simulateTimestep defaultParams exVenueC1 exStateC1 60 300 0).getD exStateC1

/-- Diffusion example: zone `A` (100 occupants, stale density 0) connected to
two near-empty large zones `B` and `C`. -/
def exZoneA : Zone :=
  { zone_id := "A", capacity := 1000, area_sqm := 100, connected_zones := ["B", "C"] }

/-- Diffusion example receiving zone `B`. -/
def exZoneB : Zone := { zone_id := "B", capacity := 1000, area_sqm := 100 }

/-- Diffusion example receiving zone `C`. -/
def exZoneC : Zone := { zone_id := "C", capacity := 1000, area_sqm := 100 }

/-- Diffusion example venue. -/
def exVenueC5 : Venue := { gates := [], zones := [exZoneA, exZoneB, exZoneC] }

/-- Diffusion example state. -/
def exStateC5 : CrowdState :=
  { event_id := "e"
    timestamp := 0
    zone_states := [("A", mkZoneState "A" 100), ("B", mkZoneState "B" 0),
                    ("C", mkZoneState "C" 0)] }

/-- The state after one diffusion phase on the example. -/
def exOutC5 : CrowdState :=
  (processZoneFlow defaultParams exVenueC5 exStateC5 60).getD exStateC5

/-- Throttling example: a 1/min gate feeding zone `T`, one person queuing. -/
def exGateC6 : Gate :=
  { gate_id := "G6", capacity_per_minute := 1, connected_zones := ["T"] }

/-- Throttling example zone. -/
def exZoneT : Zone := { zone_id := "T", capacity := 1000, area_sqm := 10 }

/-- Throttling example venue. -/
def exVenueC6 : Venue := { gates := [exGateC6], zones := [exZoneT] }

/-- Throttling example state, with the fed zone at the given density. -/
def exStateC6 (density : ℚ) : CrowdState :=
  { event_id := "e"
    timestamp := 0
    total_queuing := 1
    zone_states := [("T", { zone_id := "T", current_occupancy := 0, density := density })]
    gate_states := [("G6", { gate_id := "G6", queue_length := 1, throughput_rate := 0,
                             wait_time_minutes := 0 })] }

/-- People admitted by the example gate in a 30 s step at the given fed-zone
density. -/
def exAdmittedC6 (density : ℚ) : ℤ :=
  ((gateStep defaultParams exVenueC6 30 (exStateC6 density, 0) exGateC6).map (·.2)).getD (-1)

/-- Evacuation example zone (id, occupancy, two exits). -/
def mkEvacZone (zid : String) (occ : ℤ) : EvacuationZone :=
  { zone_id := zid, current_occupancy := occ, area_sqm := 100,
    nearest_exits := ["E1", "E2"], distance_to_exits := [("E1", 50), ("E2", 80)] }

/-- Evacuation example exit. -/
def mkExit (eid : String) (mfr : ℤ) : EmergencyExit :=
  { exit_id := eid, width := 10, max_flow_rate := mfr, connects_to_zone := "Z1" }

/-- The spec §8 evacuation scenario: 10,000 occupants, 2,000/min capacity. -/
def exSimC7 : EvacuationSimulator :=
  { exits := [("E1", mkExit "E1" 1200), ("E2", mkExit "E2" 800)],
    zones := [("Z1", mkEvacZone "Z1" 6000), ("Z2", mkEvacZone "Z2" 4000)] }

/-- A zero-capacity facility (such facilities are the §7(c) edge case). -/
def exFacilityC8 : Facility :=
  { facility_id := "F", facility_type := FacilityType.restroom_male, location := "Z",
    capacity := 0, service_time_avg := 180, service_time_std := 45 }

/-- Single-exit evacuation example used by step witnesses. -/
def exExitW : EmergencyExit :=
  { exit_id := "E", width := 1, max_flow_rate := 50, connects_to_zone := "Z" }

/-- Single-zone evacuation state (100 people on 10 m², density 10). -/
def exEvacZoneW : EvacuationZone :=
  { zone_id := "Z", current_occupancy := 100, area_sqm := 10, nearest_exits := ["E"],
    distance_to_exits := [("E", 40)] }

/-- Started evacuation state for the step witnesses. -/
def exEvacStateW : EvacuationState :=
  { phase := EvacuationPhase.alert, start_time := some 0, elapsed_seconds := 0,
    total_to_evacuate := 100, total_evacuated := 0, zones := [("Z", exEvacZoneW)],
    bottlenecks := [], recommendations := [], estimated_complete_time := 0 }

/-- A simulator on which `start_evacuation` was never called. -/
def exFreshSim : EvacuationSimulator :=
  { exits := [("E", exExitW)], zones := [("Z", exEvacZoneW)] }

end ExampleInputs

section HelperLemmas

theorem pyInt_eq_floor {q : ℚ} (h : 0 ≤ q) : pyInt q = ⌊q⌋ := by
  unfold pyInt
  rw [Rat.floor_def]
  exact Int.tdiv_eq_ediv (Rat.num_nonneg.mpr h) (Int.natCast_nonneg q.den)

theorem pyInt_nonneg {q : ℚ} (h : 0 ≤ q) : 0 ≤ pyInt q := by
  unfold pyInt
  exact Int.tdiv_nonneg (Rat.num_nonneg.mpr h) (Int.natCast_nonneg q.den)

theorem pyInt_nonpos {q : ℚ} (h : q < 0) : pyInt q ≤ 0 := by
  unfold pyInt
  have h1 : q.num < 0 := Rat.num_neg.mpr h
  have h2 : Int.tdiv q.num q.den = -(Int.tdiv (-q.num) q.den) := by
    rw [← Int.neg_tdiv, neg_neg]
  rw [h2, neg_nonpos]
  exact Int.tdiv_nonneg (by omega) (Int.natCast_nonneg q.den)

theorem pyInt_cast_le {q : ℚ} (h : 0 ≤ q) : (pyInt q : ℚ) ≤ q := by
  rw [pyInt_eq_floor h]
  exact Int.floor_le q

theorem pyInt_cast_le_of_pos {q : ℚ} (h : 0 < pyInt q) : (pyInt q : ℚ) ≤ q := by
  rcases le_or_lt 0 q with h0 | h0
  · exact pyInt_cast_le h0
  · exact absurd (pyInt_nonpos h0) (by omega)

theorem pyInt_mono {a b : ℚ} (ha : 0 ≤ a) (hab : a ≤ b) : pyInt a ≤ pyInt b := by
  rw [pyInt_eq_floor ha, pyInt_eq_floor (le_trans ha hab)]
  exact Int.floor_le_floor hab

theorem foldlM_option_invariant {α β : Type} (P : α → Prop) (f : α → β → Option α)
    (hstep : ∀ x b y, f x b = some y → P x → P y) :
    ∀ (l : List β) (a a' : α), List.foldlM f a l = some a' → P a → P a' := by
  intro l
  induction l with
  | nil =>
    intro a a' h hP
    rw [List.foldlM_nil] at h
    cases h
    exact hP
  | cons b rest ih =>
    intro a a' h hP
    rw [List.foldlM_cons] at h
    cases hfa : f a b with
    | none => rw [hfa] at h; simp at h
    | some x =>
      rw [hfa] at h
      exact ih x a' h (hstep a b x hfa hP)

theorem alookup_mem {α : Type} :
    ∀ {l : List (String × α)} {k : String} {v : α}, alookup l k = some v → (k, v) ∈ l := by
  intro l
  induction l with
  | nil => intro k v h; simp [alookup] at h
  | cons p rest ih =>
    intro k v h
    obtain ⟨k', v'⟩ := p
    by_cases hk : k' = k
    · subst hk
      simp [alookup] at h
      subst h
      exact List.mem_cons_self _ _
    · simp [alookup, hk] at h
      exact List.mem_cons_of_mem _ (ih h)

theorem aupdate_forall {α : Type} (P : α → Prop) (f : α → α) :
    ∀ (l : List (String × α)) (k : String),
      (∀ pr ∈ l, P pr.2) → (∀ v, alookup l k = some v → P (f v)) →
      ∀ pr ∈ aupdate l k f, P pr.2 := by
  intro l
  induction l with
  | nil => intro k _ _ pr hpr; simp [aupdate] at hpr
  | cons p rest ih =>
    intro k hP hf pr hpr
    obtain ⟨k', v'⟩ := p
    by_cases hk : k' = k
    · subst hk
      simp only [aupdate, if_pos rfl] at hpr
      rcases List.mem_cons.mp hpr with h | h
      · subst h
        exact hf v' (by simp [alookup])
      · exact hP _ (List.mem_cons_of_mem _ h)
    · simp only [aupdate, if_neg hk] at hpr
      rcases List.mem_cons.mp hpr with h | h
      · subst h
        exact hP _ (List.mem_cons_self _ _)
      · exact ih k (fun pr hpr => hP pr (List.mem_cons_of_mem _ hpr))
          (fun v hv => hf v (by simp [alookup, hk]; exact hv)) _ h

theorem le_foldl_max : ∀ (l : List ℚ) (d : ℚ), d ≤ l.foldl max d := by
  intro l
  induction l with
  | nil => intro d; simp
  | cons a rest ih =>
    intro d
    rw [List.foldl_cons]
    exact le_trans (le_max_left d a) (ih (max d a))

theorem mem_le_foldl_max {x : ℚ} :
    ∀ (l : List ℚ) (d : ℚ), x ∈ l → x ≤ l.foldl max d := by
  intro l
  induction l with
  | nil => intro d h; simp at h
  | cons a rest ih =>
    intro d h
    rw [List.foldl_cons]
    rcases List.mem_cons.mp h with h | h
    · subst h
      exact le_trans (le_max_right d x) (le_foldl_max rest (max d x))
    · exact ih (max d a) h

theorem foldl_max_mem : ∀ (l : List ℚ) (d : ℚ), l.foldl max d = d ∨ l.foldl max d ∈ l := by
  intro l
  induction l with
  | nil => intro d; left; rfl
  | cons a rest ih =>
    intro d
    rw [List.foldl_cons]
    rcases ih (max d a) with h | h
    · rcases max_choice d a with hm | hm
      · left; rw [h, hm]
      · right; rw [h, hm]; exact List.mem_cons_self _ _
    · right; exact List.mem_cons_of_mem _ h

end HelperLemmas

section ConservationLemmas

theorem arrivalsGateStep_sum (c : ℚ) (n : ℤ) (st : CrowdState) (g : Gate)
    (st' : CrowdState) (h : arrivalsGateStep c n st g = some st') :
    attendeeSum st' = attendeeSum st := by
  unfold arrivalsGateStep at h
  split at h
  · simp at h
  · cases h
    simp only [attendeeSum]
    ring

theorem processArrivals_sum (v : Venue) (st : CrowdState) (r dt j : ℚ)
    (st' : CrowdState) (h : processArrivals v st r dt j = some st') :
    attendeeSum st' = attendeeSum st := by
  unfold processArrivals at h
  dsimp only at h
  split at h
  · cases h; rfl
  · split at h
    · cases h; rfl
    · split at h
      · cases h; rfl
      · exact foldlM_option_invariant (fun s => attendeeSum s = attendeeSum st) _
          (fun x b y hy hx => (arrivalsGateStep_sum _ _ x b y hy).trans hx)
          _ st st' h rfl

theorem gateZoneAdd_sum (n : ℤ) (st : CrowdState) (oz : Option Zone)
    (st' : CrowdState) (h : gateZoneAdd n st oz = some st') :
    attendeeSum st' = attendeeSum st := by
  unfold gateZoneAdd at h
  split at h
  · cases h; rfl
  · split at h
    · simp at h
    · cases h; rfl

theorem gateStep_sum (p : SimulationParams) (v : Venue) (dt : ℚ)
    (acc : CrowdState × ℤ) (g : Gate) (acc' : CrowdState × ℤ)
    (h : gateStep p v dt acc g = some acc') :
    attendeeSum acc'.1 + acc'.2 = attendeeSum acc.1 + acc.2 := by
  unfold gateStep at h
  by_cases ho : (!g.is_open) = true
  · rw [if_pos ho] at h; cases h; rfl
  · rw [if_neg ho] at h
    cases hgs : alookup acc.1.gate_states g.gate_id with
    | none => simp only [hgs] at h; simp at h
    | some gs =>
      simp only [hgs] at h
      by_cases hq : gs.queue_length ≤ 0
      · rw [if_pos hq] at h; cases h; rfl
      · rw [if_neg hq] at h
        cases hred : calculateFlowReduction p acc.1 (List.map v.get_zone g.connected_zones) with
        | none => simp only [hred] at h; simp at h
        | some reduction =>
          simp only [hred] at h
          rcases Option.map_eq_some'.mp h with ⟨st2, hst2, hacc⟩
          have hsum2 : attendeeSum st2 = attendeeSum acc.1 := by
            revert hst2
            split
            · intro hst2
              exact foldlM_option_invariant
                (fun s => attendeeSum s = attendeeSum acc.1) _
                (fun x b y hy hx => (gateZoneAdd_sum _ x b y hy).trans hx)
                _ _ st2 hst2 rfl
            · intro hst2
              cases hst2
              rfl
          rw [← hacc]
          simp only [attendeeSum] at hsum2 ⊢
          omega

theorem processGates_sum (p : SimulationParams) (v : Venue) (st : CrowdState)
    (dt : ℚ) (st' : CrowdState) (h : processGates p v st dt = some st') :
    attendeeSum st' = attendeeSum st := by
  unfold processGates at h
  rcases Option.map_eq_some'.mp h with ⟨acc, hacc, hst'⟩
  have hsum : attendeeSum acc.1 + acc.2 = attendeeSum st + 0 := by
    exact foldlM_option_invariant
      (fun a : CrowdState × ℤ => attendeeSum a.1 + a.2 = attendeeSum st + 0) _
      (fun x b y hy hx => (gateStep_sum p v dt x b y hy).trans hx)
      _ (st, 0) acc hacc rfl
  rw [← hst']
  simp only [attendeeSum] at hsum ⊢
  omega

theorem zoneFlowTarget_sum (p : SimulationParams) (red dt : ℚ) (n : ℕ)
    (sid : String) (st : CrowdState) (tz : Zone) (st' : CrowdState)
    (h : zoneFlowTarget p red dt n sid st tz = some st') :
    attendeeSum st' = attendeeSum st := by
  unfold zoneFlowTarget at h
  split at h
  · dsimp only at h
    split at h
    · cases h; rfl
    · split at h
      · cases h; rfl
      · cases h; rfl
  · simp at h

theorem zoneFlowStep_sum (p : SimulationParams) (v : Venue) (dt : ℚ)
    (st : CrowdState) (z : Zone) (st' : CrowdState)
    (h : zoneFlowStep p v dt st z = some st') :
    attendeeSum st' = attendeeSum st := by
  unfold zoneFlowStep at h
  split at h
  · simp at h
  · split at h
    · cases h; rfl
    · dsimp only at h
      split at h
      · cases h; rfl
      · exact foldlM_option_invariant (fun s => attendeeSum s = attendeeSum st) _
          (fun x b y hy hx => (zoneFlowTarget_sum _ _ _ _ _ x b y hy).trans hx)
          _ st st' h rfl

theorem processZoneFlow_sum (p : SimulationParams) (v : Venue) (st : CrowdState)
    (dt : ℚ) (st' : CrowdState) (h : processZoneFlow p v st dt = some st') :
    attendeeSum st' = attendeeSum st := by
  unfold processZoneFlow at h
  exact foldlM_option_invariant (fun s => attendeeSum s = attendeeSum st) _
    (fun x b y hy hx => (zoneFlowStep_sum p v dt x b y hy).trans hx)
    _ st st' h rfl

theorem updateDensities_sum (p : SimulationParams) (v : Venue) (st : CrowdState)
    (st' : CrowdState) (h : updateDensities p v st = some st') :
    attendeeSum st' = attendeeSum st := by
  unfold updateDensities at h
  refine foldlM_option_invariant (fun s => attendeeSum s = attendeeSum st) _
    (fun x b y hy hx => ?_) _ st st' h rfl
  revert hy
  split
  · intro hy; simp at hy
  · intro hy; cases hy; exact hx

end ConservationLemmas

/-- C1: for every call of `CrowdSimulationEngine.simulate_timestep` (any venue,
state, `dt_seconds`, `arrival_rate`, and any jitter draw) that completes,
`total_approaching + total_queuing + total_inside + total_exited` in the
returned state equals the same sum in the input state: no attendee is created
or destroyed by a step. -/
theorem simulate_timestep_conserves_attendees
    (p : SimulationParams) (v : Venue) (st : CrowdState) (dt r j : ℚ)
    (st' : CrowdState) (h : simulateTimestep p v st dt r j = some st') :
    attendeeSum st' = attendeeSum st := by
  unfold simulateTimestep at h
  dsimp only at h
  rcases Option.bind_eq_some.mp h with ⟨st1, h1, h⟩
  rcases Option.bind_eq_some.mp h with ⟨st2, h2, h⟩
  rcases Option.bind_eq_some.mp h with ⟨st3, h3, h4⟩
  calc attendeeSum st' = attendeeSum st3 := updateDensities_sum p v st3 st' h4
    _ = attendeeSum st2 := processZoneFlow_sum p v st2 dt st3 h3
    _ = attendeeSum st1 := processGates_sum p v st1 dt st2 h2
    _ = attendeeSum st := (processArrivals_sum v _ r dt j st1 h1).trans rfl

unseal Rat.add Rat.mul Rat.inv Rat.sub in
/-- Witness for C1: the spec §8 scenario (one 1000-capacity zone, one 200/min
gate, 300 approaching, `dt = 60`, rate 300/min, jitter 0) completes and
conserves the attendee sum. -/
theorem simulate_timestep_conserves_attendees_witness :
    simulateTimestep defaultParams exVenueC1 exStateC1 60 300 0 = some exOutC1 ∧
    attendeeSum exOutC1 = attendeeSum exStateC1 := by
  have h : simulateTimestep defaultParams exVenueC1 exStateC1 60 300 0 = some exOutC1 := by
    decide
  exact ⟨h, simulate_timestep_conserves_attendees defaultParams exVenueC1 exStateC1
    60 300 0 exOutC1 h⟩

/-- C4: the embedded `simulate_timestep` is a pure function of the venue, the
input state, `dt_seconds`, `arrival_rate` and the jitter draw; the engine
object holds no other mutable attribute (its only state besides the fixed
`params` is the RNG, whose single draw per call is the explicit `jitter`
argument), so two calls with equal arguments and the jitter held fixed return
equal states. -/
theorem simulate_timestep_deterministic
    (p : SimulationParams) (v : Venue) (st : CrowdState) (dt r j : ℚ) :
    simulateTimestep p v st dt r j = simulateTimestep p v st dt r j := rfl

section ZoneFlowLemmas

theorem zoneFlowAmount_le {p : SimulationParams} {red dt : ℚ} {n : ℕ}
    {occ avail : ℤ} (h : 0 < zoneFlowAmount p red dt n occ avail) :
    (zoneFlowAmount p red dt n occ avail : ℚ) ≤ (occ : ℚ) * (1 / 10) ∧
    zoneFlowAmount p red dt n occ avail ≤ avail := by
  unfold zoneFlowAmount at h ⊢
  have hle := pyInt_cast_le_of_pos h
  constructor
  · exact le_trans hle (le_trans (min_le_left _ _) (min_le_right _ _))
  · have h2 : (pyInt _ : ℚ) ≤ (avail : ℚ) := le_trans hle (min_le_right _ _)
    exact_mod_cast h2

theorem zoneFlowTarget_nonneg (p : SimulationParams) (red dt : ℚ) (n : ℕ)
    (sid : String) (st : CrowdState) (tz : Zone) (st' : CrowdState)
    (h : zoneFlowTarget p red dt n sid st tz = some st')
    (hP : ∀ pr ∈ st.zone_states, 0 ≤ pr.2.current_occupancy) :
    ∀ pr ∈ st'.zone_states, 0 ≤ pr.2.current_occupancy := by
  unfold zoneFlowTarget at h
  split at h
  · rename_i targetState senderState heq1 heq2
    dsimp only at h
    split at h
    · cases h; exact hP
    · split at h
      · rename_i hflowpos
        cases h
        have hbounds := zoneFlowAmount_le hflowpos
        set flow := zoneFlowAmount p red dt n senderState.current_occupancy
          (tz.capacity - targetState.current_occupancy) with hflowdef
        have hocc : (0 : ℤ) ≤ senderState.current_occupancy :=
          hP _ (alookup_mem heq2)
        have hfz : flow ≤ senderState.current_occupancy := by
          have h1 : (flow : ℚ) ≤ (senderState.current_occupancy : ℚ) * (1 / 10) :=
            hbounds.1
          have h2 : (0 : ℚ) ≤ (senderState.current_occupancy : ℚ) := by
            exact_mod_cast hocc
          have h3 : (flow : ℚ) ≤ (senderState.current_occupancy : ℚ) := by linarith
          exact_mod_cast h3
        have hsender : ∀ pr ∈ aupdate st.zone_states sid
            (fun zs => { zs with current_occupancy := zs.current_occupancy - flow }),
            0 ≤ pr.2.current_occupancy := by
          refine aupdate_forall (fun zs : ZoneState => 0 ≤ zs.current_occupancy) _ _ _ hP ?_
          intro v hv
          rw [heq2] at hv
          cases hv
          show 0 ≤ senderState.current_occupancy - flow
          omega
        dsimp only
        refine aupdate_forall (fun zs : ZoneState => 0 ≤ zs.current_occupancy) _ _ _ hsender ?_
        intro v hv
        have hv0 : (0 : ℤ) ≤ v.current_occupancy := hsender _ (alookup_mem hv)
        show 0 ≤ v.current_occupancy + flow
        omega
      · cases h; exact hP
  · simp at h

theorem zoneFlowStep_nonneg (p : SimulationParams) (v : Venue) (dt : ℚ)
    (st : CrowdState) (z : Zone) (st' : CrowdState)
    (h : zoneFlowStep p v dt st z = some st')
    (hP : ∀ pr ∈ st.zone_states, 0 ≤ pr.2.current_occupancy) :
    ∀ pr ∈ st'.zone_states, 0 ≤ pr.2.current_occupancy := by
  unfold zoneFlowStep at h
  split at h
  · simp at h
  · split at h
    · cases h; exact hP
    · dsimp only at h
      split at h
      · cases h; exact hP
      · exact foldlM_option_invariant
          (fun s => ∀ pr ∈ s.zone_states, 0 ≤ pr.2.current_occupancy) _
          (fun x b y hy hx => zoneFlowTarget_nonneg _ _ _ _ _ x b y hy hx)
          _ st st' h hP

theorem processZoneFlow_nonneg (p : SimulationParams) (v : Venue)
    (st : CrowdState) (dt : ℚ) (st' : CrowdState)
    (h : processZoneFlow p v st dt = some st')
    (hP : ∀ pr ∈ st.zone_states, 0 ≤ pr.2.current_occupancy) :
    ∀ pr ∈ st'.zone_states, 0 ≤ pr.2.current_occupancy := by
  unfold processZoneFlow at h
  exact foldlM_option_invariant
    (fun s => ∀ pr ∈ s.zone_states, 0 ≤ pr.2.current_occupancy) _
    (fun x b y hy hx => zoneFlowStep_nonneg p v dt x b y hy hx)
    _ st st' h hP

end ZoneFlowLemmas

unseal Rat.add Rat.mul Rat.inv Rat.sub in
/-- C5 counterexample: zone `A` starts the diffusion phase of the example with
100 occupants and two connected, nearly empty zones. One `_process_zone_flow`
moves 10 then 9 people out (the source caps each *transfer* at 10% of the
*instantaneous* occupancy), so the step total 19 exceeds 10% of the occupancy
`A` held when the phase began, refuting the claimed per-step 10% bound. -/
theorem zone_flow_ten_percent_counterexample :
    processZoneFlow defaultParams exVenueC5 exStateC5 60 = some exOutC5 ∧
    (alookup exOutC5.zone_states "A").map (·.current_occupancy) = some 81 ∧
    ¬ ((100 : ℚ) - 81 ≤ 100 * (1 / 10)) := by decide

/-- C5 amended: during the diffusion phase, every individual transfer out of a
zone is at most 10% of the sending zone's occupancy at the moment of the
transfer and at most the receiving zone's remaining capacity
(`capacity − occupancy`, so no transfer lifts the receiver above capacity),
and if every occupancy is non-negative before the phase then every occupancy is
non-negative after it. A zone with several connected neighbours can however
lose more than 10% of its start-of-phase occupancy in one step. -/
theorem zone_flow_per_transfer_bounds :
    (∀ (p : SimulationParams) (red dt : ℚ) (n : ℕ) (occ avail : ℤ),
      0 < zoneFlowAmount p red dt n occ avail →
      (zoneFlowAmount p red dt n occ avail : ℚ) ≤ (occ : ℚ) * (1 / 10) ∧
      zoneFlowAmount p red dt n occ avail ≤ avail) ∧
    (∀ (p : SimulationParams) (v : Venue) (st : CrowdState) (dt : ℚ)
      (st' : CrowdState),
      processZoneFlow p v st dt = some st' →
      (∀ pr ∈ st.zone_states, 0 ≤ pr.2.current_occupancy) →
      ∀ pr ∈ st'.zone_states, 0 ≤ pr.2.current_occupancy) :=
  ⟨fun _ _ _ _ _ _ h => zoneFlowAmount_le h,
   fun p v st dt st' h hP => processZoneFlow_nonneg p v st dt st' h hP⟩

unseal Rat.add Rat.mul Rat.inv Rat.sub in
/-- Witness for the amended C5: a concrete transfer (occupancy 100, free
capacity 500) obeys both per-transfer bounds, and the example diffusion phase
leaves zone `A` with the non-negative occupancy 81. -/
theorem zone_flow_per_transfer_bounds_witness :
    ((zoneFlowAmount defaultParams 1 60 2 100 500 : ℚ) ≤ (100 : ℚ) * (1 / 10) ∧
      zoneFlowAmount defaultParams 1 60 2 100 500 ≤ 500) ∧
    0 ≤ (mkZoneState "A" 81).current_occupancy := by
  refine ⟨zone_flow_per_transfer_bounds.1 defaultParams 1 60 2 100 500 (by decide), ?_⟩
  exact zone_flow_per_transfer_bounds.2 defaultParams exVenueC5 exStateC5 60 exOutC5
    (by decide) (by decide) ("A", mkZoneState "A" 81) (by decide)

section FlowReductionLemmas

theorem densityReduction_default_comfortable {d : ℚ} (h : d < 1 / 2) :
    getDensityReduction defaultParams d = 1 := by
  unfold getDensityReduction
  rw [show defaultParams.density_comfortable = 1 / 2 from rfl]
  rw [if_pos h]

theorem densityReduction_default_crowded {d : ℚ} (h1 : 1 / 2 ≤ d) (h2 : d < 2) :
    getDensityReduction defaultParams d = 7 / 10 := by
  unfold getDensityReduction
  rw [show defaultParams.density_comfortable = 1 / 2 from rfl,
      show defaultParams.density_crowded = 2 from rfl]
  rw [if_neg (not_lt.mpr h1), if_pos h2]
  rfl

theorem densityReduction_default_dangerous {d : ℚ} (h1 : 2 ≤ d) (h2 : d < 4) :
    getDensityReduction defaultParams d = 2 / 5 := by
  unfold getDensityReduction
  rw [show defaultParams.density_comfortable = 1 / 2 from rfl,
      show defaultParams.density_crowded = 2 from rfl,
      show defaultParams.density_dangerous = 4 from rfl]
  have hx : ¬ d < 1 / 2 := by intro hlt; linarith
  rw [if_neg hx, if_neg (not_lt.mpr h1), if_pos h2]
  rfl

theorem densityReduction_default_critical {d : ℚ} (h : 4 ≤ d) :
    getDensityReduction defaultParams d = 1 / 10 := by
  unfold getDensityReduction
  rw [show defaultParams.density_comfortable = 1 / 2 from rfl,
      show defaultParams.density_crowded = 2 from rfl,
      show defaultParams.density_dangerous = 4 from rfl]
  have hx : ¬ d < 1 / 2 := by intro hlt; linarith
  have hy : ¬ d < 2 := by intro hlt; linarith
  rw [if_neg hx, if_neg hy, if_neg (not_lt.mpr h)]
  rfl

theorem densityReduction_default_mono (d1 d2 : ℚ) (h : d1 ≤ d2) :
    getDensityReduction defaultParams d2 ≤ getDensityReduction defaultParams d1 := by
  unfold getDensityReduction
  rw [show defaultParams.density_comfortable = 1 / 2 from rfl,
      show defaultParams.density_crowded = 2 from rfl,
      show defaultParams.density_dangerous = 4 from rfl,
      show defaultParams.flow_reduction_crowded = 7 / 10 from rfl,
      show defaultParams.flow_reduction_dangerous = 2 / 5 from rfl,
      show defaultParams.flow_reduction_critical = 1 / 10 from rfl]
  split_ifs <;> linarith

theorem gateAdmittedCount_throttle (cap q : ℤ) (dt : ℚ)
    (hcap : 0 ≤ cap) (hdt : 0 ≤ dt) (hq : 0 ≤ q) :
    gateAdmittedCount cap dt q (1 / 10) ≤ gateAdmittedCount cap dt q 1 ∧
    (1 ≤ gateAdmittedCount cap dt q 1 →
      gateAdmittedCount cap dt q (1 / 10) < gateAdmittedCount cap dt q 1) := by
  unfold gateAdmittedCount
  set x : ℚ := min ((cap : ℚ) * dt / 60) (q : ℚ) with hx
  have hcap' : (0 : ℚ) ≤ (cap : ℚ) := by exact_mod_cast hcap
  have hq' : (0 : ℚ) ≤ (q : ℚ) := by exact_mod_cast hq
  have hx0 : 0 ≤ x :=
    le_min (div_nonneg (mul_nonneg hcap' hdt) (by norm_num)) hq'
  rw [mul_one]
  rw [pyInt_eq_floor hx0, pyInt_eq_floor (by linarith : (0 : ℚ) ≤ x * (1 / 10))]
  constructor
  · exact Int.floor_le_floor (by linarith)
  · intro h1
    have hn : (1 : ℚ) ≤ (⌊x⌋ : ℚ) := by exact_mod_cast h1
    have hxl : x < (⌊x⌋ : ℚ) + 1 := Int.lt_floor_add_one x
    have hlt : x * (1 / 10) < (⌊x⌋ : ℚ) := by linarith
    have h2 : (⌊x * (1 / 10)⌋ : ℚ) < (⌊x⌋ : ℚ) :=
      lt_of_le_of_lt (Int.floor_le _) hlt
    exact_mod_cast h2

end FlowReductionLemmas

unseal Rat.add Rat.mul Rat.inv Rat.sub in
/-- C6 counterexample: the example gate (capacity 1/min) with one person
queuing and `dt = 30` admits `int(0.5 · reduction)` people. At fed-zone
density 5 (above the dangerous breakpoint) it admits 0, and at density 1/5
(comfortable regime) it also admits 0 — not *strictly* fewer, refuting the
final conjunct of the claim as stated. -/
theorem flow_throttling_counterexample :
    exAdmittedC6 5 = 0 ∧ exAdmittedC6 (1 / 5) = 0 ∧
    ¬ exAdmittedC6 5 < exAdmittedC6 (1 / 5) := by decide

/-- C6 amended: with the default parameters the flow-reduction factor is
exactly 1 below the comfortable threshold, takes the four configured values in
ascending-breakpoint first-match order, and is monotonically non-increasing in
density; a gate feeding a zone above the dangerous breakpoint admits **at
most** as many people as the same gate and queue at comfortable density, and
strictly fewer whenever the comfortable-density admission is at least one
person (for fractional sub-person throughputs both truncate to the same
count). -/
theorem flow_reduction_amended :
    (∀ d : ℚ, d < defaultParams.density_comfortable →
      getDensityReduction defaultParams d = 1) ∧
    (∀ d : ℚ, defaultParams.density_comfortable ≤ d →
      d < defaultParams.density_crowded →
      getDensityReduction defaultParams d = 7 / 10) ∧
    (∀ d : ℚ, defaultParams.density_crowded ≤ d →
      d < defaultParams.density_dangerous →
      getDensityReduction defaultParams d = 2 / 5) ∧
    (∀ d : ℚ, defaultParams.density_dangerous ≤ d →
      getDensityReduction defaultParams d = 1 / 10) ∧
    (∀ d1 d2 : ℚ, d1 ≤ d2 →
      getDensityReduction defaultParams d2 ≤ getDensityReduction defaultParams d1) ∧
    (∀ (cap q : ℤ) (dt d1 d2 : ℚ), 0 ≤ cap → 0 ≤ dt → 0 ≤ q →
      d1 < defaultParams.density_comfortable →
      defaultParams.density_dangerous < d2 →
      gateAdmittedCount cap dt q (getDensityReduction defaultParams d2) ≤
        gateAdmittedCount cap dt q (getDensityReduction defaultParams d1) ∧
      (1 ≤ gateAdmittedCount cap dt q (getDensityReduction defaultParams d1) →
        gateAdmittedCount cap dt q (getDensityReduction defaultParams d2) <
          gateAdmittedCount cap dt q (getDensityReduction defaultParams d1))) :=
  ⟨fun _ h => densityReduction_default_comfortable h,
   fun _ h1 h2 => densityReduction_default_crowded h1 h2,
   fun _ h1 h2 => densityReduction_default_dangerous h1 h2,
   fun _ h => densityReduction_default_critical h,
   densityReduction_default_mono,
   fun cap q dt d1 d2 hcap hdt hq hd1 hd2 => by
     rw [densityReduction_default_comfortable hd1,
         densityReduction_default_critical (le_of_lt hd2)]
     exact gateAdmittedCount_throttle cap q dt hcap hdt hq⟩

unseal Rat.add Rat.mul Rat.inv Rat.sub in
/-- Witness for the amended C6: concrete tier values, monotonicity at 3 ≤ 5,
and a 200/min gate with 300 queuing for one minute that admits 200 people at
comfortable density but only 20 above the dangerous breakpoint. -/
theorem flow_reduction_amended_witness :
    getDensityReduction defaultParams (1 / 5) = 1 ∧
    getDensityReduction defaultParams 5 ≤ getDensityReduction defaultParams 3 ∧
    gateAdmittedCount 200 60 300 (getDensityReduction defaultParams 5) <
      gateAdmittedCount 200 60 300 (getDensityReduction defaultParams (1 / 5)) := by
  obtain ⟨t1, _, _, _, mono, thr⟩ := flow_reduction_amended
  refine ⟨t1 (1 / 5) (by decide), mono 3 5 (by decide), ?_⟩
  exact (thr 200 300 60 (1 / 5) 5 (by decide) (by decide) (by decide) (by decide)
    (by decide)).2 (by decide)

section EvacuationStepLemmas

theorem evacExitLoop_spec (dtm : ℚ) (occ : ℤ) (area : ℚ)
    (distances : List (String × ℚ)) (hdtm : 0 ≤ dtm) :
    ∀ (eids : List String) (exits : List (String × EmergencyExit)) (ze : ℤ),
      (∀ pr ∈ exits, 0 ≤ pr.2.max_flow_rate) → 0 ≤ ze → ze ≤ occ →
      ze ≤ (evacExitLoop dtm occ area distances eids exits ze).2 ∧
      (evacExitLoop dtm occ area distances eids exits ze).2 ≤ occ ∧
      (∀ pr ∈ (evacExitLoop dtm occ area distances eids exits ze).1,
        0 ≤ pr.2.max_flow_rate) := by
  intro eids
  induction eids with
  | nil =>
    intro exits ze hmfr hze0 hzeocc
    exact ⟨le_refl _, hzeocc, hmfr⟩
  | cons eid rest ih =>
    intro exits ze hmfr hze0 hzeocc
    unfold evacExitLoop
    cases hex : alookup exits eid with
    | none =>
      dsimp only
      exact ih exits ze hmfr hze0 hzeocc
    | some ex =>
      dsimp only
      by_cases hacc : (!ex.is_accessible) = true
      · rw [if_pos hacc]
        exact ih exits ze hmfr hze0 hzeocc
      · rw [if_neg hacc]
        have hmfr0 : (0 : ℤ) ≤ ex.max_flow_rate := hmfr _ (alookup_mem hex)
        have hcong : (0 : ℚ) ≤ max (3 / 10) (1 - (occ : ℚ) / area / BOTTLENECK_DENSITY * (1 / 2)) :=
          le_trans (by norm_num) (le_max_left _ _)
        have heff : (0 : ℚ) ≤ (ex.max_flow_rate : ℚ) *
            max (3 / 10) (1 - (occ : ℚ) / area / BOTTLENECK_DENSITY * (1 / 2)) * dtm :=
          mul_nonneg (mul_nonneg (by exact_mod_cast hmfr0) hcong) hdtm
        have hevac0 : 0 ≤ min (pyInt ((ex.max_flow_rate : ℚ) *
            max (3 / 10) (1 - (occ : ℚ) / area / BOTTLENECK_DENSITY * (1 / 2)) * dtm))
            (occ - ze) :=
          le_min (pyInt_nonneg heff) (by omega)
        have hevacle : min (pyInt ((ex.max_flow_rate : ℚ) *
            max (3 / 10) (1 - (occ : ℚ) / area / BOTTLENECK_DENSITY * (1 / 2)) * dtm))
            (occ - ze) ≤ occ - ze := min_le_right _ _
        have hmfr2 : ∀ pr ∈ aupdate exits eid
            (fun e => { e with current_flow_rate := pyInt ((min (pyInt ((ex.max_flow_rate : ℚ) *
              max (3 / 10) (1 - (occ : ℚ) / area / BOTTLENECK_DENSITY * (1 / 2)) * dtm))
              (occ - ze) : ℤ) / dtm) }),
            0 ≤ pr.2.max_flow_rate := by
          refine aupdate_forall (fun e : EmergencyExit => 0 ≤ e.max_flow_rate) _ _ _ hmfr ?_
          intro v hv
          exact hmfr _ (alookup_mem hv)
        have hrec := ih (aupdate exits eid
            (fun e => { e with current_flow_rate := pyInt ((min (pyInt ((ex.max_flow_rate : ℚ) *
              max (3 / 10) (1 - (occ : ℚ) / area / BOTTLENECK_DENSITY * (1 / 2)) * dtm))
              (occ - ze) : ℤ) / dtm) }))
          (ze + min (pyInt ((ex.max_flow_rate : ℚ) *
              max (3 / 10) (1 - (occ : ℚ) / area / BOTTLENECK_DENSITY * (1 / 2)) * dtm))
              (occ - ze))
          hmfr2 (by omega) (by omega)
        exact ⟨le_trans (by omega) hrec.1, hrec.2.1, hrec.2.2⟩

theorem evacZoneStep_spec (dtm : ℚ) (exits : List (String × EmergencyExit))
    (z : EvacuationZone) (hmfr : ∀ pr ∈ exits, 0 ≤ pr.2.max_flow_rate)
    (hdtm : 0 ≤ dtm) :
    0 ≤ (evacZoneStep dtm exits z).2.2 ∧
    (evacZoneStep dtm exits z).1.current_occupancy =
      z.current_occupancy - (evacZoneStep dtm exits z).2.2 ∧
    (evacZoneStep dtm exits z).1.evacuated_count =
      z.evacuated_count + (evacZoneStep dtm exits z).2.2 ∧
    (evacZoneStep dtm exits z).1.area_sqm = z.area_sqm ∧
    (∀ pr ∈ (evacZoneStep dtm exits z).2.1, 0 ≤ pr.2.max_flow_rate) := by
  unfold evacZoneStep
  by_cases hocc : z.current_occupancy ≤ 0
  · rw [if_pos hocc]
    dsimp only
    refine ⟨le_refl _, by omega, by omega, rfl, hmfr⟩
  · rw [if_neg hocc]
    have hspec := evacExitLoop_spec dtm z.current_occupancy z.area_sqm
      z.distance_to_exits hdtm z.nearest_exits exits 0 hmfr (le_refl _) (by omega)
    rcases hsp : evacExitLoop dtm z.current_occupancy z.area_sqm
      z.distance_to_exits z.nearest_exits exits 0 with ⟨e2, ze⟩
    rw [hsp] at hspec
    dsimp only
    exact ⟨hspec.1, rfl, rfl, rfl, hspec.2.2⟩

theorem evacZonesLoop_spec (dtm : ℚ) (hdtm : 0 ≤ dtm) :
    ∀ (zs : List (String × EvacuationZone)) (exits : List (String × EmergencyExit)),
      (∀ pr ∈ exits, 0 ≤ pr.2.max_flow_rate) →
      0 ≤ (evacZonesLoop dtm zs exits).2.2 ∧
      sumEvacuatedCounts (evacZonesLoop dtm zs exits).1 =
        sumEvacuatedCounts zs + (evacZonesLoop dtm zs exits).2.2 ∧
      (∀ pr ∈ (evacZonesLoop dtm zs exits).2.1, 0 ≤ pr.2.max_flow_rate) ∧
      List.Forall₂
        (fun (a b : String × EvacuationZone) =>
          a.1 = b.1 ∧ a.2.area_sqm = b.2.area_sqm ∧
          a.2.current_occupancy ≤ b.2.current_occupancy)
        (evacZonesLoop dtm zs exits).1 zs := by
  intro zs
  induction zs with
  | nil =>
    intro exits hmfr
    exact ⟨le_refl _, by simp [evacZonesLoop, sumEvacuatedCounts], hmfr, List.Forall₂.nil⟩
  | cons kz rest ih =>
    intro exits hmfr
    obtain ⟨k, z⟩ := kz
    have hz := evacZoneStep_spec dtm exits z hmfr hdtm
    unfold evacZonesLoop
    rcases hz1 : evacZoneStep dtm exits z with ⟨z1, e1, v1⟩
    rw [hz1] at hz
    dsimp only at hz ⊢
    obtain ⟨hv1, hocc1, hec1, harea1, hmfr1⟩ := hz
    have hrest := ih e1 hmfr1
    rcases hr : evacZonesLoop dtm rest e1 with ⟨rest1, e2, v2⟩
    rw [hr] at hrest
    dsimp only at hrest ⊢
    obtain ⟨hv2, hsum2, hmfr2, hfa2⟩ := hrest
    refine ⟨by omega, ?_, hmfr2, ?_⟩
    · simp only [sumEvacuatedCounts]
      omega
    · exact List.Forall₂.cons
        ⟨rfl, harea1, by show z1.current_occupancy ≤ z.current_occupancy; omega⟩ hfa2

theorem forall₂_occAt
    {out zs : List (String × EvacuationZone)}
    (h : List.Forall₂
      (fun (a b : String × EvacuationZone) =>
        a.1 = b.1 ∧ a.2.area_sqm = b.2.area_sqm ∧
        a.2.current_occupancy ≤ b.2.current_occupancy) out zs) :
    ∀ k : String,
      ((alookup out k).map (·.current_occupancy)).getD 0 ≤
      ((alookup zs k).map (·.current_occupancy)).getD 0 := by
  induction h with
  | nil => intro k; simp [alookup]
  | cons hab hrest ih =>
    intro k
    rename_i a b l1 l2
    obtain ⟨ka, va⟩ := a
    obtain ⟨kb, vb⟩ := b
    obtain ⟨hk, _, hocc⟩ := hab
    cases hk
    by_cases hkk : ka = k
    · simp [alookup, hkk]
      exact hocc
    · simp only [alookup, if_neg hkk]
      exact ih k

theorem forall₂_area
    {out zs : List (String × EvacuationZone)}
    (h : List.Forall₂
      (fun (a b : String × EvacuationZone) =>
        a.1 = b.1 ∧ a.2.area_sqm = b.2.area_sqm ∧
        a.2.current_occupancy ≤ b.2.current_occupancy) out zs)
    (harea : ∀ pr ∈ zs, 0 < pr.2.area_sqm) :
    ∀ pr ∈ out, 0 < pr.2.area_sqm := by
  induction h with
  | nil => intro pr hpr; simp at hpr
  | cons hab hrest ih =>
    intro pr hpr
    rename_i a b l1 l2
    rcases List.mem_cons.mp hpr with h1 | h1
    · subst h1
      rw [hab.2.1]
      exact harea _ (List.mem_cons_self _ _)
    · exact ih (fun pr hpr => harea pr (List.mem_cons_of_mem _ hpr)) _ h1

end EvacuationStepLemmas

section EvacuationSimLemmas

theorem simulateStepCore_spec (exits : List (String × EmergencyExit))
    (st : EvacuationState) (dt : ℤ)
    (hmfr : ∀ pr ∈ exits, 0 ≤ pr.2.max_flow_rate) (hdt : 0 ≤ dt) :
    st.total_evacuated ≤ (simulateStepCore exits st dt).2.total_evacuated ∧
    (simulateStepCore exits st dt).2.total_evacuated -
        sumEvacuatedCounts (simulateStepCore exits st dt).2.zones =
      st.total_evacuated - sumEvacuatedCounts st.zones ∧
    (∀ k : String,
      ((alookup (simulateStepCore exits st dt).2.zones k).map
        (·.current_occupancy)).getD 0 ≤
      ((alookup st.zones k).map (·.current_occupancy)).getD 0) ∧
    (∀ pr ∈ (simulateStepCore exits st dt).1, 0 ≤ pr.2.max_flow_rate) := by
  have hdtm : (0 : ℚ) ≤ (dt : ℚ) / 60 := by
    have : (0 : ℚ) ≤ (dt : ℚ) := by exact_mod_cast hdt
    linarith
  have hloop := evacZonesLoop_spec ((dt : ℚ) / 60) hdtm st.zones exits hmfr
  unfold simulateStepCore
  dsimp only
  rcases hl : evacZonesLoop ((dt : ℚ) / 60) st.zones exits with ⟨zones1, exits1, v⟩
  rw [hl] at hloop
  dsimp only at hloop ⊢
  obtain ⟨hv, hsum, hmfr1, hfa⟩ := hloop
  exact ⟨by omega, by omega, forall₂_occAt hfa, hmfr1⟩

theorem simulateStepCore_phase (exits : List (String × EmergencyExit))
    (st : EvacuationState) (dt : ℤ) :
    (simulateStepCore exits st dt).2.phase =
      updatePhase st.phase (simulateStepCore exits st dt).2.zones := by
  unfold simulateStepCore
  dsimp only

theorem evacZoneStep_area (dtm : ℚ) (exits : List (String × EmergencyExit))
    (z : EvacuationZone) :
    (evacZoneStep dtm exits z).1.area_sqm = z.area_sqm := by
  unfold evacZoneStep
  split
  · rfl
  · rcases hsp : evacExitLoop dtm z.current_occupancy z.area_sqm
      z.distance_to_exits z.nearest_exits exits 0 with ⟨e2, ze⟩
    rfl

theorem evacZonesLoop_area (dtm : ℚ) :
    ∀ (zs : List (String × EvacuationZone)) (exits : List (String × EmergencyExit)),
      (∀ pr ∈ zs, 0 < pr.2.area_sqm) →
      ∀ pr ∈ (evacZonesLoop dtm zs exits).1, 0 < pr.2.area_sqm := by
  intro zs
  induction zs with
  | nil => intro exits _ pr hpr; simp [evacZonesLoop] at hpr
  | cons kz rest ih =>
    intro exits h pr hpr
    obtain ⟨k, z⟩ := kz
    have harea := evacZoneStep_area dtm exits z
    unfold evacZonesLoop at hpr
    rcases hz1 : evacZoneStep dtm exits z with ⟨z1, e1, v1⟩
    rw [hz1] at hpr harea
    dsimp only at hpr harea
    rcases hr : evacZonesLoop dtm rest e1 with ⟨rest1, e2, v2⟩
    rw [hr] at hpr
    dsimp only at hpr
    rcases List.mem_cons.mp hpr with h1 | h1
    · subst h1
      show 0 < z1.area_sqm
      rw [harea]
      exact h _ (List.mem_cons_self _ _)
    · have := ih e1 (fun pr hpr => h pr (List.mem_cons_of_mem _ hpr))
      rw [hr] at this
      exact this _ h1

theorem simulateStepCore_area (exits : List (String × EmergencyExit))
    (st : EvacuationState) (dt : ℤ)
    (harea : ∀ pr ∈ st.zones, 0 < pr.2.area_sqm) :
    ∀ pr ∈ (simulateStepCore exits st dt).2.zones, 0 < pr.2.area_sqm := by
  unfold simulateStepCore
  dsimp only
  rcases hl : evacZonesLoop ((dt : ℚ) / 60) st.zones exits with ⟨zones1, exits1, v⟩
  have := evacZonesLoop_area ((dt : ℚ) / 60) st.zones exits harea
  rw [hl] at this
  exact this

theorem simulateStepsN_succ (exits : List (String × EmergencyExit))
    (st0 : EvacuationState) (dt : ℤ) (n : ℕ) :
    simulateStepsN exits st0 dt (n + 1) =
      simulateStepCore (simulateStepsN exits st0 dt n).1
        (simulateStepsN exits st0 dt n).2 dt := by
  rcases h : simulateStepsN exits st0 dt n with ⟨e, s⟩
  simp [simulateStepsN, h]

theorem simulateStepsN_invariant (exits : List (String × EmergencyExit))
    (st0 : EvacuationState) (dt : ℤ)
    (hmfr : ∀ pr ∈ exits, 0 ≤ pr.2.max_flow_rate) (hdt : 0 ≤ dt) :
    ∀ n : ℕ,
      (∀ pr ∈ (simulateStepsN exits st0 dt n).1, 0 ≤ pr.2.max_flow_rate) ∧
      ((simulateStepsN exits st0 dt n).2.total_evacuated -
          sumEvacuatedCounts (simulateStepsN exits st0 dt n).2.zones =
        st0.total_evacuated - sumEvacuatedCounts st0.zones) := by
  intro n
  induction n with
  | zero => exact ⟨hmfr, rfl⟩
  | succ n ih =>
    have hcore := simulateStepCore_spec (simulateStepsN exits st0 dt n).1
      (simulateStepsN exits st0 dt n).2 dt ih.1 hdt
    rw [simulateStepsN_succ]
    exact ⟨hcore.2.2.2, hcore.2.1.trans ih.2⟩

theorem sumEvacuatedCounts_eq_zero :
    ∀ {zs : List (String × EvacuationZone)},
      (∀ pr ∈ zs, pr.2.evacuated_count = 0) → sumEvacuatedCounts zs = 0 := by
  intro zs
  induction zs with
  | nil => intro _; rfl
  | cons p rest ih =>
    intro h
    simp only [sumEvacuatedCounts]
    rw [h p (List.mem_cons_self _ _),
      ih (fun pr hpr => h pr (List.mem_cons_of_mem _ hpr))]
    omega

end EvacuationSimLemmas

/-- C2: starting from the state `start_evacuation` stores (evacuated total 0
and all per-zone `evacuated_count`s 0), across any number of `simulate_step`
calls (positive `dt`, non-negative exit flow capacities) `total_evacuated` is
non-decreasing, every zone's `current_occupancy` is non-increasing, and
`total_evacuated` always equals the sum over zones of `evacuated_count`. -/
theorem evac_monotonicity (exits : List (String × EmergencyExit))
    (st0 : EvacuationState) (dt : ℤ) (m n : ℕ) (hmn : m ≤ n)
    (hmfr : ∀ pr ∈ exits, 0 ≤ pr.2.max_flow_rate) (hdt : 0 < dt)
    (hstart0 : st0.total_evacuated = 0)
    (hstart1 : ∀ pr ∈ st0.zones, pr.2.evacuated_count = 0) :
    (simulateStepsN exits st0 dt m).2.total_evacuated ≤
      (simulateStepsN exits st0 dt n).2.total_evacuated ∧
    (∀ k : String,
      ((alookup (simulateStepsN exits st0 dt n).2.zones k).map
        (·.current_occupancy)).getD 0 ≤
      ((alookup (simulateStepsN exits st0 dt m).2.zones k).map
        (·.current_occupancy)).getD 0) ∧
    (simulateStepsN exits st0 dt n).2.total_evacuated =
      sumEvacuatedCounts (simulateStepsN exits st0 dt n).2.zones := by
  have hdt0 : 0 ≤ dt := le_of_lt hdt
  have hinv := simulateStepsN_invariant exits st0 dt hmfr hdt0
  have hcoreN := fun j => simulateStepCore_spec (simulateStepsN exits st0 dt j).1
    (simulateStepsN exits st0 dt j).2 dt (hinv j).1 hdt0
  have hmono : Monotone (fun j => (simulateStepsN exits st0 dt j).2.total_evacuated) := by
    apply monotone_nat_of_le_succ
    intro j
    show _ ≤ (simulateStepsN exits st0 dt (j + 1)).2.total_evacuated
    rw [simulateStepsN_succ]
    exact (hcoreN j).1
  have hanti : ∀ k : String, Antitone (fun j =>
      ((alookup (simulateStepsN exits st0 dt j).2.zones k).map
        (·.current_occupancy)).getD 0) := by
    intro k
    apply antitone_nat_of_succ_le
    intro j
    show ((alookup (simulateStepsN exits st0 dt (j + 1)).2.zones k).map
        (·.current_occupancy)).getD 0 ≤ _
    rw [simulateStepsN_succ]
    exact (hcoreN j).2.2.1 k
  have hsum0 : sumEvacuatedCounts st0.zones = 0 := sumEvacuatedCounts_eq_zero hstart1
  have hn := (hinv n).2
  exact ⟨hmono hmn, fun k => hanti k hmn, by omega⟩

unseal Rat.add Rat.mul Rat.inv Rat.sub in
/-- Witness for C2: the single-zone evacuation example run for two steps:
the evacuated total grows from 0 and equals the per-zone counter sum. -/
theorem evac_monotonicity_witness :
    (simulateStepsN [("E", exExitW)] exEvacStateW 60 0).2.total_evacuated ≤
      (simulateStepsN [("E", exExitW)] exEvacStateW 60 2).2.total_evacuated ∧
    (simulateStepsN [("E", exExitW)] exEvacStateW 60 2).2.total_evacuated =
      sumEvacuatedCounts (simulateStepsN [("E", exExitW)] exEvacStateW 60 2).2.zones := by
  have h := evac_monotonicity [("E", exExitW)] exEvacStateW 60 0 2 (by omega)
    (by decide) (by decide) (by decide) (by decide)
  exact ⟨h.1, h.2.2⟩

section PhaseLemmas

theorem density_nonpos_of_occ_nonpos {occ : ℤ} {area : ℚ}
    (hocc : occ ≤ 0) (harea : 0 < area) : (occ : ℚ) / area ≤ 0 := by
  have h1 : (occ : ℚ) ≤ 0 := by exact_mod_cast hocc
  have h2 : (0 : ℚ) ≤ area⁻¹ := inv_nonneg.mpr (le_of_lt harea)
  rw [div_eq_mul_inv]
  nlinarith

theorem maxOccupiedDensity_ge_iff (zones : List (String × EvacuationZone))
    (harea : ∀ pr ∈ zones, 0 < pr.2.area_sqm) (c : ℚ) (hc : 0 < c) :
    c ≤ maxOccupiedDensity zones ↔
      ∃ pr ∈ zones, c ≤ (pr.2.current_occupancy : ℚ) / pr.2.area_sqm := by
  unfold maxOccupiedDensity
  cases hfl : zones.filterMap (fun kz =>
      if 0 < kz.2.current_occupancy then
        some ((kz.2.current_occupancy : ℚ) / kz.2.area_sqm)
      else none) with
  | nil =>
    constructor
    · intro h; exact absurd h (by simp; linarith)
    · rintro ⟨pr, hpr, hd⟩
      exfalso
      by_cases hocc : 0 < pr.2.current_occupancy
      · have hmem : ((pr.2.current_occupancy : ℚ) / pr.2.area_sqm) ∈
            zones.filterMap (fun kz =>
              if 0 < kz.2.current_occupancy then
                some ((kz.2.current_occupancy : ℚ) / kz.2.area_sqm)
              else none) :=
          List.mem_filterMap.mpr ⟨pr, hpr, by rw [if_pos hocc]⟩
        rw [hfl] at hmem
        simp at hmem
      · have := density_nonpos_of_occ_nonpos (not_lt.mp hocc) (harea pr hpr)
        linarith
  | cons d ds =>
    constructor
    · intro h
      have hmem2 : ds.foldl max d ∈ d :: ds := by
        rcases foldl_max_mem ds d with h1 | h1
        · rw [h1]; exact List.mem_cons_self _ _
        · exact List.mem_cons_of_mem _ h1
      rw [← hfl] at hmem2
      rcases List.mem_filterMap.mp hmem2 with ⟨pr, hpr, hif⟩
      by_cases hocc : 0 < pr.2.current_occupancy
      · rw [if_pos hocc] at hif
        refine ⟨pr, hpr, ?_⟩
        rw [Option.some_inj.mp hif]
        exact h
      · rw [if_neg hocc] at hif
        exact absurd hif (by simp)
    · rintro ⟨pr, hpr, hd⟩
      have hocc : 0 < pr.2.current_occupancy := by
        by_contra hneg
        have := density_nonpos_of_occ_nonpos (not_lt.mp hneg) (harea pr hpr)
        linarith
      have hmem : ((pr.2.current_occupancy : ℚ) / pr.2.area_sqm) ∈
          zones.filterMap (fun kz =>
            if 0 < kz.2.current_occupancy then
              some ((kz.2.current_occupancy : ℚ) / kz.2.area_sqm)
            else none) :=
        List.mem_filterMap.mpr ⟨pr, hpr, by rw [if_pos hocc]⟩
      rw [hfl] at hmem
      rcases List.mem_cons.mp hmem with h1 | h1
      · rw [h1] at hd
        exact le_trans hd (le_foldl_max ds d)
      · exact le_trans hd (mem_le_foldl_max ds d h1)

theorem updatePhase_characterization (phase : EvacuationPhase)
    (zones : List (String × EvacuationZone))
    (harea : ∀ pr ∈ zones, 0 < pr.2.area_sqm) :
    updatePhase phase zones =
      (if ∃ pr ∈ zones, CRUSHING_DENSITY ≤ (pr.2.current_occupancy : ℚ) / pr.2.area_sqm
        then EvacuationPhase.critical
        else if (∃ pr ∈ zones,
            BOTTLENECK_DENSITY ≤ (pr.2.current_occupancy : ℚ) / pr.2.area_sqm)
            ∨ phase = EvacuationPhase.critical
          then EvacuationPhase.panic
        else if phase = EvacuationPhase.panic ∧
            maxOccupiedDensity zones < BOTTLENECK_DENSITY * (1 / 2)
          then EvacuationPhase.alert
        else phase) ∧
    (phase ≠ EvacuationPhase.normal →
      updatePhase phase zones ≠ EvacuationPhase.normal) := by
  have h6 := maxOccupiedDensity_ge_iff zones harea CRUSHING_DENSITY
    (by norm_num [CRUSHING_DENSITY])
  have h4 := maxOccupiedDensity_ge_iff zones harea BOTTLENECK_DENSITY
    (by norm_num [BOTTLENECK_DENSITY])
  constructor
  · unfold updatePhase
    by_cases hc6 : CRUSHING_DENSITY ≤ maxOccupiedDensity zones
    · rw [if_pos hc6, if_pos (h6.mp hc6)]
    · rw [if_neg hc6, if_neg (fun hex => hc6 (h6.mpr hex))]
      by_cases hc4 : BOTTLENECK_DENSITY ≤ maxOccupiedDensity zones
      · rw [if_pos hc4, if_pos (Or.inl (h4.mp hc4))]
      · rw [if_neg hc4]
        by_cases hcrit : phase = EvacuationPhase.critical
        · rw [if_pos ⟨hcrit, not_le.mp hc4⟩, if_pos (Or.inr hcrit)]
        · have hnotor : ¬ ((∃ pr ∈ zones,
              BOTTLENECK_DENSITY ≤ (pr.2.current_occupancy : ℚ) / pr.2.area_sqm) ∨
              phase = EvacuationPhase.critical) := by
            rintro (hex | hph)
            · exact hc4 (h4.mpr hex)
            · exact hcrit hph
          rw [if_neg (fun hh => hcrit (And.left hh)), if_neg hnotor]
  · intro hn
    unfold updatePhase
    dsimp only
    split_ifs <;>
      first
        | exact fun hfalse => EvacuationPhase.noConfusion hfalse
        | exact hn

end PhaseLemmas

/-- C3: after every `simulate_step`, the phase is CRITICAL if some zone density
(recomputed after the step) is at or above the crushing threshold; else PANIC
if some zone density is at or above the bottleneck threshold or the previous
phase was CRITICAL; else ALERT if the previous phase was PANIC and the maximum
density is below half the bottleneck threshold; otherwise unchanged — and
NORMAL is never re-entered once left. Requires positive zone areas (a zone
with zero area would make the Python density computation raise). -/
theorem evac_phase_after_step (exits : List (String × EmergencyExit))
    (st : EvacuationState) (dt : ℤ) (_hdt : 0 < dt)
    (harea : ∀ pr ∈ st.zones, 0 < pr.2.area_sqm) :
    ((simulateStepCore exits st dt).2.phase =
      (if ∃ pr ∈ (simulateStepCore exits st dt).2.zones,
          CRUSHING_DENSITY ≤ (pr.2.current_occupancy : ℚ) / pr.2.area_sqm
        then EvacuationPhase.critical
        else if (∃ pr ∈ (simulateStepCore exits st dt).2.zones,
            BOTTLENECK_DENSITY ≤ (pr.2.current_occupancy : ℚ) / pr.2.area_sqm)
            ∨ st.phase = EvacuationPhase.critical
          then EvacuationPhase.panic
        else if st.phase = EvacuationPhase.panic ∧
            maxOccupiedDensity (simulateStepCore exits st dt).2.zones <
              BOTTLENECK_DENSITY * (1 / 2)
          then EvacuationPhase.alert
        else st.phase)) ∧
    (st.phase ≠ EvacuationPhase.normal →
      (simulateStepCore exits st dt).2.phase ≠ EvacuationPhase.normal) := by
  have hphase := simulateStepCore_phase exits st dt
  have harea2 := simulateStepCore_area exits st dt harea
  have hchar := updatePhase_characterization st.phase
    (simulateStepCore exits st dt).2.zones harea2
  refine ⟨hphase.trans hchar.1, fun hn => ?_⟩
  rw [hphase]
  exact hchar.2 hn

unseal Rat.add Rat.mul Rat.inv Rat.sub in
/-- Witness for C3: from the ALERT example state (density 10 before the step,
8.5 after), the phase after one step is not NORMAL, by the characterization. -/
theorem evac_phase_after_step_witness :
    (simulateStepCore [("E", exExitW)] exEvacStateW 60).2.phase ≠
      EvacuationPhase.normal :=
  (evac_phase_after_step [("E", exExitW)] exEvacStateW 60 (by decide)
    (by decide)).2 (by decide)

unseal Rat.add Rat.mul Rat.inv Rat.sub in
/-- C7 (code bug): the estimate expression of `start_evacuation` (source lines
110–118) is exactly as claimed — 10,000 occupants with 2,000/min combined exit
capacity in ALERT gives `(10000/2000)·60·1.5 = 450` seconds, and the non-ALERT
safety factor is 2.0 (600 s) — but the call itself never completes on a fresh
simulator: the `EvacuationState(...)` keyword arguments are evaluated before
`self.state` is assigned, and `_generate_initial_recommendations()` reads
`self.state.zones` while `self.state` is still `None`, so every first call
raises `AttributeError` (modelled by `none`) and no state is stored. -/
theorem start_evacuation_estimate_bug :
    evacInitialEstimate exSimC7.zones exSimC7.exits EvacuationPhase.alert = 450 ∧
    evacInitialEstimate exSimC7.zones exSimC7.exits EvacuationPhase.panic = 600 ∧
    startEvacuation exSimC7 0 EvacuationPhase.alert = none := by decide

unseal Rat.add Rat.mul Rat.inv Rat.sub in
/-- C8 (code bug): with zero total exit capacity the guarded estimate
expression of `start_evacuation` does produce the large sentinel
`int(9999 · 1.5) = 14998` instead of dividing by zero — but the call still
raises the `self.state.zones` `AttributeError` before returning it — and
`FacilitySimulator.simulate_step` on a facility with zero service points
raises `ZeroDivisionError` (modelled by `none`): its wait-time expression
`(queue * service_time_avg) / (60 * capacity)` is unguarded, contradicting
§7(c) of the spec. -/
theorem zero_capacity_edge_cases :
    evacInitialEstimate exSimC7.zones [] EvacuationPhase.alert = 14998 ∧
    startEvacuation { exits := [], zones := exSimC7.zones } 0
      EvacuationPhase.alert = none ∧
    facilitySimulateStep [exFacilityC8] "entry" [] (fun _ => 1) 60 = none := by
  decide

set_option maxRecDepth 8000 in
unseal Rat.add Rat.mul Rat.inv Rat.sub in
/-- C9 counterexample: over a 100-minute window with 1000 attendees, under a
point-mass stand-in density the source's wave curve puts 300 attendees at
minute 30 (= 30% of the window, weight 0.3/1), while the spec-modelled
equal-weighted 25%/50%/75% mixture puts 0 there: the claimed shape (equal
weights at quarter points) does not match the source (0.3/0.4/0.3 weights at
30%/50%/70%). -/
theorem wave_curve_counterexample :
    (generateWaveCurve diracPdf 1000 100).get? 30 = some (30, 300) ∧
    (generateWaveCurveSpecModel diracPdf 1000 100).get? 30 = some (30, 0) ∧
    (generateWaveCurve diracPdf 1000 100).get? 30 ≠
      (generateWaveCurveSpecModel diracPdf 1000 100).get? 30 := by decide

/-- C9 amended: the `wave` pattern is the 0.3/0.4/0.3-weighted mixture of
three truncated-normal peaks centred at 30%, 50% and 70% of the window with
one common fixed spread (scale 20, truncation ±1.5σ). Consequently (i) the
mixture is symmetric about the window midpoint for every shift-invariant even
density — which holds precisely because the outer weights are equal and the
outer centres sit symmetrically — and (ii) under a point-mass stand-in
density the three peaks carry weights 0.3 / 0.4 / 0.3. -/
theorem wave_curve_amended :
    (∀ (pdf : ℚ → ℚ → ℚ → ℚ → ℚ → ℚ) (D m : ℚ),
      (∀ x a b loc s, pdf x a b loc s = pdf (x - loc) a b 0 s) →
      (∀ x a b s, pdf x a b 0 s = pdf (-x) a b 0 s) →
      waveCurvePoint pdf D (D - m) = waveCurvePoint pdf D m) ∧
    (∀ D : ℚ, D ≠ 0 →
      waveCurvePoint diracPdf D (D * (3 / 10)) = 3 / 10 ∧
      waveCurvePoint diracPdf D (D * (5 / 10)) = 4 / 10 ∧
      waveCurvePoint diracPdf D (D * (7 / 10)) = 3 / 10) := by
  constructor
  · intro pdf D m hshift hsym
    unfold waveCurvePoint
    have key : ∀ loc1 loc2 : ℚ, loc1 + loc2 = D →
        pdf (D - m) (-(30 / 20)) (30 / 20) loc1 20 =
          pdf m (-(30 / 20)) (30 / 20) loc2 20 := by
      intro loc1 loc2 hsumloc
      rw [hshift (D - m) (-(30 / 20)) (30 / 20) loc1 20, hsym]
      rw [show -(D - m - loc1) = m - loc2 by linarith]
      rw [← hshift m (-(30 / 20)) (30 / 20) loc2 20]
    rw [key (D * (3 / 10)) (D * (7 / 10)) (by ring),
        key (D * (5 / 10)) (D * (5 / 10)) (by ring),
        key (D * (7 / 10)) (D * (3 / 10)) (by ring)]
    ring
  · intro D hD
    refine ⟨?_, ?_, ?_⟩
    · unfold waveCurvePoint diracPdf
      rw [if_pos rfl,
          if_neg (fun h => by have := mul_left_cancel₀ hD h; norm_num at this),
          if_neg (fun h => by have := mul_left_cancel₀ hD h; norm_num at this)]
      norm_num
    · unfold waveCurvePoint diracPdf
      rw [if_neg (fun h => by have := mul_left_cancel₀ hD h; norm_num at this),
          if_pos rfl,
          if_neg (fun h => by have := mul_left_cancel₀ hD h; norm_num at this)]
      norm_num
    · unfold waveCurvePoint diracPdf
      rw [if_neg (fun h => by have := mul_left_cancel₀ hD h; norm_num at this),
          if_neg (fun h => by have := mul_left_cancel₀ hD h; norm_num at this),
          if_pos rfl]
      norm_num

unseal Rat.add Rat.mul Rat.inv Rat.sub in
/-- Witness for the amended C9: the symmetry instance at a concrete
shift-invariant even density (a shifted quadratic) over a 100-minute window,
and the concrete 0.3 weight of the first peak. -/
theorem wave_curve_amended_witness :
    waveCurvePoint quadPdf 100 (100 - 30) = waveCurvePoint quadPdf 100 30 ∧
    waveCurvePoint diracPdf 100 (100 * (3 / 10)) = 3 / 10 := by
  constructor
  · exact wave_curve_amended.1 quadPdf 100 30
      (fun x a b loc s => by unfold quadPdf; ring)
      (fun x a b s => by unfold quadPdf; ring)
  · exact (wave_curve_amended.2 100 (by norm_num)).1

/-- C10: calling `get_evacuation_summary` before `start_evacuation` returns
the empty record `{}` rather than raising, while `simulate_step` in the same
un-started condition raises `ValueError`. -/
theorem summary_before_start (sim : EvacuationSimulator) (dt : ℤ)
    (h : sim.state = none) :
    getEvacuationSummary sim = EvacuationSummary.empty ∧
    simulateStep sim dt =
      Except.error "Evacuation not started. Call start_evacuation first." := by
  unfold getEvacuationSummary simulateStep
  rw [h]
  exact ⟨rfl, rfl⟩

/-- Witness for C10: the fresh example simulator. -/
theorem summary_before_start_witness :
    getEvacuationSummary exFreshSim = EvacuationSummary.empty ∧
    simulateStep exFreshSim 60 =
      Except.error "Evacuation not started. Call start_evacuation first." :=
  summary_before_start exFreshSim 60 rfl
